import Mathlib

/-!
Shallow embedding of the book-shelf animation/interaction state machine of
`src/script.js` (rich variant) and `src/main.js` (simple variant).

Conventions of the embedding:
* JS numbers are modelled as rationals (`ℚ`).
* Angles are measured in units of π (the source writes `-Math.PI * 1.2`,
  modelled as the rational `-6/5`); `Math.cos` / `Math.sin` are external
  library functions and are passed in as parameters `cosine sine : ℚ → ℚ`
  taking an angle in π-units.
* The mutable `this` object of class `Texture` is the record `Texture`;
  every method becomes a function `Texture → ... → Texture`.
* The method-valued field `this.checkAnimationProgress`, which
  `toggleBookAnimationWithCallback` monkey-patches with nested wrapper
  closures, is modelled by the inductive `Checker`: `Checker.base` is the
  original method, `Checker.wrap i cb inner` is the wrapper closure created
  when book `i` starts closing with callback `cb`, with captured
  `originalCheckAnimationProgress = inner`.
* Callbacks are identified by `CallbackId`; invoking one appends it to the
  `fired` log and, for the close-all completion counter `checkAllClosed`,
  updates the pending aggregate record.
-/

namespace BooksDemo

/-- A 3-component vector (position, or rotation with angles in π-units). -/
structure V3 where
  x : ℚ
  y : ℚ
  z : ℚ
deriving DecidableEq, Repr

/-- One animation-clip binding: `{ action, originalDuration }` where the
`action` contributes its mutable `time`, `timeScale` and `paused`. -/
structure Clip where
  time : ℚ
  timeScale : ℚ
  paused : Bool
  originalDuration : ℚ
deriving DecidableEq, Repr

/-- Identity of a settlement callback: the shared `checkAllClosed` counter of
the aggregate close-all, or an externally supplied callback (used to observe
invocation counts). -/
inductive CallbackId where
  | checkAllClosed
  | external (n : Nat)
deriving DecidableEq, Repr

/-- The lazily built gsap `openTimeline` of a book.  `duration` is the total
length of its longest track; `builtCallback` is the `callback` argument
captured by the `onReverseComplete` closure at build time. -/
structure OpenTimeline where
  progress : ℚ
  timeScale : ℚ
  paused : Bool
  reversed : Bool
  duration : ℚ
  builtCallback : Option CallbackId
deriving DecidableEq, Repr

/-- One `bookInstance`. -/
structure Book where
  isOpen : Bool
  isClickPlaying : Bool
  isHoverPlaying : Bool
  clips : List Clip
  position : V3
  rotation : V3
  openTimeline : Option OpenTimeline
deriving DecidableEq, Repr

/-- The current value of the mutable method slot `this.checkAnimationProgress`. -/
inductive Checker where
  | base
  | wrap (bookIndex : Nat) (cb : Option CallbackId) (inner : Checker)
deriving DecidableEq, Repr

/-- The `closedCount` / `openBookIndices.length` pair of a pending aggregate
close-all promise. -/
structure Agg where
  target : Nat
  closedCount : Nat
deriving DecidableEq, Repr

/-- The mutable state of the `Texture` instance (plus the `lastProgress`
variable captured by the ScrollTrigger `onUpdate` closure, and
`pendingTarget`, the `targetProgress` captured by a running scroll-reversal
recovery). -/
structure Texture where
  books : List (Option Book)
  checker : Checker
  fired : List CallbackId
  bookClosePromise : Option Agg
  aggResolvedCount : Nat
  isClosingFromScroll : Bool
  canInteract : Bool
  currentHoveredIndex : Int
  lastProgress : ℚ
  pendingTarget : Option ℚ
  cameraX : ℚ
  lastCalculatedPositions : List (ℚ × ℚ)
deriving DecidableEq, Repr

/-- `this.clickPlayPercentage = 0.9`. -/
def clickPlayPercentage : ℚ := 9/10

/-- `this.hoverPlayPercentage = 0.2`. -/
def hoverPlayPercentage : ℚ := 1/5

/-- `degToRad` in π-units: `deg * (Math.PI / 180)` is `deg / 180` π. -/
def degToRadPi (deg : ℚ) : ℚ := deg / 180

/-- `this.bookInstances[i]` (out-of-range indices read as absent slots). -/
def getBook (σ : Texture) (i : Nat) : Option Book :=
  σ.books.getD i none

/-- Write slot `i` of `this.bookInstances`. -/
def setBook (σ : Texture) (i : Nat) (b : Book) : Texture :=
  { σ with books := σ.books.set i (some b) }

/-- The three per-book flags mutated by `checkAnimationProgress`. -/
structure BookFlags where
  isOpen : Bool
  isClickPlaying : Bool
  isHoverPlaying : Bool
deriving DecidableEq, Repr

/-- The per-clip body of `checkAnimationProgress`: reads `currentTime` once,
then runs the click-mode clamp branch and the hover-mode clamp branch. -/
def checkClip (fl : BookFlags) (c0 : Clip) : BookFlags × Clip :=
  let currentTime := c0.time
  let forwardLimit := c0.originalDuration * clickPlayPercentage
  let afterClick : BookFlags × Clip :=
    if fl.isClickPlaying then
      if 0 < c0.timeScale ∧ forwardLimit ≤ currentTime then
        ({ fl with isClickPlaying := false, isOpen := true },
         { c0 with paused := true, time := forwardLimit })
      else if c0.timeScale < 0 ∧ currentTime ≤ 0 then
        ({ fl with isClickPlaying := false, isOpen := false },
         { c0 with paused := true, time := 0 })
      else (fl, c0)
    else (fl, c0)
  let fl1 := afterClick.1
  let c1 := afterClick.2
  let hoverForwardLimit := c0.originalDuration * hoverPlayPercentage
  if fl1.isHoverPlaying then
    if 0 < c1.timeScale ∧ hoverForwardLimit ≤ currentTime then
      ({ fl1 with isHoverPlaying := false },
       { c1 with paused := true, time := hoverForwardLimit })
    else if c1.timeScale < 0 ∧ currentTime ≤ 0 then
      ({ fl1 with isHoverPlaying := false },
       { c1 with paused := true, time := 0 })
    else (fl1, c1)
  else (fl1, c1)

/-- The `animationActions.forEach` loop of `checkAnimationProgress`: the flag
mutations of earlier clips are visible to later clips. -/
def checkClips : BookFlags → List Clip → BookFlags × List Clip
  | fl, [] => (fl, [])
  | fl, c :: cs =>
    let p := checkClip fl c
    let q := checkClips p.1 cs
    (q.1, p.2 :: q.2)

/-- `checkAnimationProgress(book)` (the original, un-patched method). -/
def checkAnimationProgress (b : Book) : Book :=
  let r := checkClips ⟨b.isOpen, b.isClickPlaying, b.isHoverPlaying⟩ b.clips
  { b with isOpen := r.1.isOpen, isClickPlaying := r.1.isClickPlaying,
           isHoverPlaying := r.1.isHoverPlaying, clips := r.2 }

/-- Invoke a callback: log it, and for the aggregate counter `checkAllClosed`
run `closedCount++; if (closedCount >= openBookIndices.length) {
this.bookClosePromise = null; resolve(); }`.  (`resolve()` is recorded by
incrementing `aggResolvedCount`.  A `checkAllClosed` firing after its
aggregate has already resolved only bumps a local counter in the dead closure,
which is unobservable, so it is modelled as just the log entry.) -/
def fireCallback (σ : Texture) (cb : CallbackId) : Texture :=
  let σ1 := { σ with fired := σ.fired ++ [cb] }
  match cb with
  | .checkAllClosed =>
    match σ1.bookClosePromise with
    | some a =>
      let c := a.closedCount + 1
      if a.target ≤ c then
        { σ1 with bookClosePromise := none,
                  aggResolvedCount := σ1.aggResolvedCount + 1 }
      else
        { σ1 with bookClosePromise := some ⟨a.target, c⟩ }
    | none => σ1
  | .external _ => σ1

/-- `if (callback) callback();`. -/
def fireOptCallback (σ : Texture) : Option CallbackId → Texture
  | some cb => fireCallback σ cb
  | none => σ

/-- Run the current value of the `this.checkAnimationProgress` slot on book
`k`.  A wrapper first calls its captured `originalCheckAnimationProgress`,
then, if the checked book is its own book and that book has finished
closing, writes its captured original back into the slot and invokes its
callback (the source restores first, then calls the callback). -/
def runChecker : Checker → Texture → Nat → Texture
  | .base, σ, k =>
    match getBook σ k with
    | some b => setBook σ k (checkAnimationProgress b)
    | none => σ
  | .wrap i cb inner, σ, k =>
    let σ1 := runChecker inner σ k
    if k = i then
      match getBook σ1 i with
      | some b =>
        if b.isClickPlaying = false ∧ b.isOpen = false then
          fireOptCallback { σ1 with checker := inner } cb
        else σ1
      | none => σ1
    else σ1

/-- `mixer.update(deltaTime)`: every non-paused action advances by
`timeScale * dt`. -/
def advanceClip (dt : ℚ) (c : Clip) : Clip :=
  if c.paused then c else { c with time := c.time + c.timeScale * dt }

/-- Advance all actions of one book. -/
def mixerUpdate (dt : ℚ) (b : Book) : Book :=
  { b with clips := b.clips.map (advanceClip dt) }

/-- One gsap ticker step for a (non-paused) timeline, including the
`onComplete` (pause, snap to 1) and `onReverseComplete` (pause, snap to 0,
invoke the build-time captured callback) handlers.  Returns the callback the
handler fires, if any. -/
def advanceTimeline (dt : ℚ) (tl : OpenTimeline) : OpenTimeline × Option CallbackId :=
  if tl.reversed then
    let p := tl.progress - tl.timeScale * dt / tl.duration
    if p ≤ 0 then
      ({ tl with paused := true, progress := 0 }, tl.builtCallback)
    else
      ({ tl with progress := p }, none)
  else
    let p := tl.progress + tl.timeScale * dt / tl.duration
    if 1 ≤ p then
      ({ tl with paused := true, progress := 1 }, none)
    else
      ({ tl with progress := p }, none)

/-- The body of the per-frame `animate` loop for one book index: if the book
exists and is click- or hover-playing, advance its mixer and call the current
`this.checkAnimationProgress`. -/
def tickBook (dt : ℚ) (σ : Texture) (i : Nat) : Texture :=
  match getBook σ i with
  | some b =>
    if b.isClickPlaying ∨ b.isHoverPlaying then
      let σ1 := setBook σ i (mixerUpdate dt b)
      runChecker σ1.checker σ1 i
    else σ
  | none => σ

/-- The gsap ticker step for the timeline of one book (paused timelines are not
advanced by the ticker). -/
def tickTimelineBook (dt : ℚ) (σ : Texture) (i : Nat) : Texture :=
  match getBook σ i with
  | some b =>
    match b.openTimeline with
    | some tl =>
      if tl.paused then σ
      else
        let r := advanceTimeline dt tl
        let σ1 := setBook σ i { b with openTimeline := some r.1 }
        fireOptCallback σ1 r.2
    | none => σ
  | none => σ

/-- One frame: the `animate` loop over all books (in index order, reading
the live state, as `forEach` does), then the gsap ticker advancing each
timeline of a book. -/
def tick (dt : ℚ) (σ : Texture) : Texture :=
  let σ1 := (List.range σ.books.length).foldl (tickBook dt) σ
  (List.range σ1.books.length).foldl (tickTimelineBook dt) σ1

/-- Iterated frames. -/
def ticks (dt : ℚ) : Nat → Texture → Texture
  | 0, σ => σ
  | n + 1, σ => ticks dt n (tick dt σ)

/-- The hover-cancellation prologue of the toggle: clear `isHoverPlaying`
and pause every action. -/
def cancelHover (b : Book) : Book :=
  if b.isHoverPlaying then
    { b with isHoverPlaying := false,
             clips := b.clips.map (fun c => { c with paused := true }) }
  else b

/-- Whether some other (loaded) book exists — decides whether the lazily
built timeline has an off-screen track of duration 3 (otherwise its longest
track is the centering translation of duration 2). -/
def otherBookExists (σ : Texture) (i : Nat) : Bool :=
  (List.range σ.books.length).any (fun j => (j != i) && (getBook σ j).isSome)

/-- `if (!book.openTimeline) { book.openTimeline = gsap.timeline({...}); ...
book.openTimeline.pause(0); }` — built once, capturing the `callback` of the
current call in the `onReverseComplete` closure. -/
def buildTimeline (σ : Texture) (i : Nat) (cb : Option CallbackId) (b : Book) : Book :=
  match b.openTimeline with
  | some _ => b
  | none =>
    let dur : ℚ := if otherBookExists σ i then 3 else 2
    let tl : OpenTimeline :=
      { progress := 0, timeScale := 1, paused := true, reversed := false,
        duration := dur, builtCallback := cb }
    { b with openTimeline := some tl }

/-- `toggleBookAnimationWithCallback(bookIndex, callback)`. -/
def toggleBookAnimationWithCallback (σ : Texture) (i : Nat)
    (cb : Option CallbackId) : Texture :=
  match getBook σ i with
  | none => fireOptCallback σ cb
  | some b0 =>
    if b0.clips = [] then fireOptCallback σ cb
    else
      let b1 := buildTimeline σ i cb (cancelHover b0)
      if b1.isOpen = false then
        -- opening: play every action forward, play the timeline from 0
        let clips := b1.clips.map (fun c => { c with paused := false, timeScale := 1 })
        let tl := b1.openTimeline.map (fun t =>
          { t with timeScale := 1, progress := 0, paused := false, reversed := false })
        setBook σ i { b1 with isClickPlaying := true, clips := clips, openTimeline := tl }
      else
        -- closing: play every action backward, monkey-patch the progress
        -- checker with a wrapper carrying the callback of this call, reverse the
        -- timeline at double speed from progress 1
        let clips := b1.clips.map (fun c => { c with paused := false, timeScale := -1 })
        let tl := b1.openTimeline.map (fun t =>
          { t with timeScale := 2, progress := 1, paused := false, reversed := true })
        let σ1 := setBook σ i { b1 with isClickPlaying := true, clips := clips, openTimeline := tl }
        { σ1 with checker := .wrap i cb σ1.checker }

/-- `isAnyBookOpen()`. -/
def isAnyBookOpen (σ : Texture) : Bool :=
  σ.books.any (fun ob => match ob with | some b => b.isOpen | none => false)

/-- The `openBookIndices` snapshot taken by the close-all executor. -/
def openBookIndices (σ : Texture) : List Nat :=
  (List.range σ.books.length).filter (fun i =>
    match getBook σ i with | some b => b.isOpen | none => false)

/-- `closeAllOpenBooksWithPromise()`.  The promise executor runs
synchronously; since every open book necessarily has clips (only the clamp
check can set `isOpen`), no `checkAllClosed` can fire during the executor,
so installing the aggregate record before issuing the toggles is
observationally equal to the assignment order of the source. -/
def closeAllOpenBooksWithPromise (σ : Texture) : Texture :=
  if σ.bookClosePromise.isSome then σ
  else if isAnyBookOpen σ = false then σ
  else
    let idxs := openBookIndices σ
    if idxs.isEmpty then σ
    else
      let σ1 := { σ with bookClosePromise := some ⟨idxs.length, 0⟩ }
      idxs.foldl (fun s i => toggleBookAnimationWithCallback s i (some .checkAllClosed)) σ1

/-- The post-toggle scan of `onCanvasClick`: close every other currently
open book. -/
def closeOthersScan (σ : Texture) (k : Nat) : Texture :=
  (List.range σ.books.length).foldl
    (fun s i =>
      if i = k then s
      else
        match getBook s i with
        | some ob => if ob.isOpen then toggleBookAnimationWithCallback s i none else s
        | none => s) σ

/-- `onCanvasClick(event)`; the ray intersection against the clickable
geometry is external (three.js), so the resolved hit index is an input. -/
def onCanvasClick (σ : Texture) (hit : Option Nat) : Texture :=
  if σ.canInteract = false ∨ σ.isClosingFromScroll then σ
  else
    match hit with
    | none => σ
    | some k =>
      let σ1 := toggleBookAnimationWithCallback σ k none
      match getBook σ1 k with
      | some b => if b.isOpen = false then closeOthersScan σ1 k else σ1
      | none => σ1

/-- `animateToFraction(book, fraction)`. -/
def animateToFraction (b : Book) (fraction : ℚ) : Book :=
  if b.clips = [] then b
  else
    { b with isHoverPlaying := true,
             clips := b.clips.map (fun c =>
               let targetTime := fraction * c.originalDuration
               let direction : ℚ := if c.time < targetTime then 1 else -1
               { c with timeScale := direction, paused := false }) }

/-- `setHoveredBook(bookIndex)`. -/
def setHoveredBook (σ : Texture) (k : Nat) : Texture :=
  let σ1 := { σ with currentHoveredIndex := (k : Int) }
  match getBook σ1 k with
  | none => σ1
  | some b =>
    if b.isOpen ∨ b.isClickPlaying then σ1
    else setBook σ1 k (animateToFraction b hoverPlayPercentage)

/-- `clearHoveredBook()`. -/
def clearHoveredBook (σ : Texture) : Texture :=
  if σ.currentHoveredIndex = -1 then σ
  else
    let k := σ.currentHoveredIndex.toNat
    let σ1 := { σ with currentHoveredIndex := -1 }
    match getBook σ1 k with
    | none => σ1
    | some b =>
      if b.isOpen ∨ b.isClickPlaying then σ1
      else setBook σ1 k (animateToFraction b 0)

/-- `onCanvasMouseMove(event)`; hit index as in `onCanvasClick`. -/
def onCanvasMouseMove (σ : Texture) (hit : Option Nat) : Texture :=
  if σ.canInteract = false then σ
  else
    match hit with
    | some k =>
      if (k : Int) = σ.currentHoveredIndex then σ
      else setHoveredBook (clearHoveredBook σ) k
    | none => clearHoveredBook σ

/-! ### Orbit placement -/

/-- One entry of `ellipseConfigs`. -/
structure EllipseConfig where
  centerX : ℚ
  centerY : ℚ
  radiusX : ℚ
  radiusY : ℚ
deriving DecidableEq, Repr

/-- One entry of `angleConfigs`; angles in π-units. -/
structure AngleConfig where
  start : ℚ
  endX : ℚ
  endY : ℚ
deriving DecidableEq, Repr

/-- The four per-index ellipse configurations. -/
def ellipseConfigs : List EllipseConfig :=
  [⟨0, 0, 13/10, 7/10⟩, ⟨0, 0, 11/10, 1/2⟩, ⟨0, 0, 9/10, 2/5⟩, ⟨0, 0, 7/10, 3/10⟩]

/-- The four per-index angular interpolation ranges (π-units):
`{ start: -π·1.0, endX: -π·2.2, endY: -π·2.14 }` etc. -/
def angleConfigs : List AngleConfig :=
  [⟨-1, -11/5, -107/50⟩, ⟨-6/5, -47/20, -11/5⟩,
   ⟨-7/5, -5/2, -453/200⟩, ⟨-8/5, -14/5, -49/20⟩]

/-- `angleX = start + (endX - start) * progress`. -/
def angleX (i : Nat) (progress : ℚ) : ℚ :=
  let a := angleConfigs.getD i ⟨0, 0, 0⟩
  a.start + (a.endX - a.start) * progress

/-- `angleY = start + (endY - start) * progress`. -/
def angleY (i : Nat) (progress : ℚ) : ℚ :=
  let a := angleConfigs.getD i ⟨0, 0, 0⟩
  a.start + (a.endY - a.start) * progress

/-- The shared ellipse evaluation: `x = centerX + radiusX * cos(angleX)`,
`y = centerY + radiusY * sin(angleY)`. -/
def placePos (cosine sine : ℚ → ℚ) (i : Nat) (progress : ℚ) : ℚ × ℚ :=
  let e := ellipseConfigs.getD i ⟨0, 0, 0, 0⟩
  (e.centerX + e.radiusX * cosine (angleX i progress),
   e.centerY + e.radiusY * sine (angleY i progress))

/-- The per-book body of `updateBookPositions`: the orbit transform is
written only when the book is neither open nor click-playing. -/
def updateBook (cosine sine : ℚ → ℚ) (progress : ℚ) (i : Nat) (b : Book) : Book :=
  if b.isOpen ∨ b.isClickPlaying then b
  else
    let p := placePos cosine sine i progress
    { b with position := ⟨p.1, p.2, b.position.z⟩,
             rotation := ⟨progress * degToRadPi 90, 0,
                          progress * degToRadPi (-28 - 20 * (i : ℚ))⟩ }

/-- Indexed map over the book slots (the `forEach` of
`updateBookPositions`), starting at index `k`. -/
def updateBooksFrom (cosine sine : ℚ → ℚ) (progress : ℚ) :
    Nat → List (Option Book) → List (Option Book)
  | _, [] => []
  | k, ob :: rest =>
    ob.map (updateBook cosine sine progress k) ::
      updateBooksFrom cosine sine progress (k + 1) rest

/-- `updateBookPositions(progress)` (identical in both source variants). -/
def updateBookPositions (cosine sine : ℚ → ℚ) (σ : Texture) (progress : ℚ) : Texture :=
  { σ with cameraX := 7/5 - progress,
           books := updateBooksFrom cosine sine progress 0 σ.books }

/-- The pure output of `calculateBookPositionsForProgress` (the loop runs
over `this.books.length = 4` metadata entries). -/
def calcPositions (cosine sine : ℚ → ℚ) (progress : ℚ) : List (ℚ × ℚ) :=
  (List.range 4).map (fun i => placePos cosine sine i progress)

/-- `calculateBookPositionsForProgress(progress)`: computes the positions,
stores them in `this.lastCalculatedPositions`, and returns them. -/
def calculateBookPositionsForProgress (cosine sine : ℚ → ℚ) (σ : Texture)
    (progress : ℚ) : Texture × List (ℚ × ℚ) :=
  let ps := calcPositions cosine sine progress
  ({ σ with lastCalculatedPositions := ps }, ps)

/-! ### The ScrollTrigger `onUpdate` handler and the recovery sequence -/

/-- Externally observable side effects of the scroll machine, in issue
order. -/
inductive Action where
  | disableScroll
  | setClosingFlag
  | issueCloseAll
  | orbitUpdate (p : ℚ)
  | setCanInteract (b : Bool)
  | enableScroll
  | startPositionTransition (target : ℚ)
  | startScrollAnimation (target : ℚ)
  | clearClosingFlag
deriving DecidableEq, Repr

/-- The `onUpdate` handler of the ScrollTrigger in `script.js`: on upward
scroll with a book open and no recovery in flight, capture `targetProgress`,
disable the trigger, set `isClosingFromScroll` and issue the close-all;
the steady-state orbit update and the `canInteract` recomputation run only
when no recovery is in flight; `lastProgress` is always updated. -/
def onUpdate (cosine sine : ℚ → ℚ) (σ : Texture) (p : ℚ) : Texture × List Action :=
  let go := decide (p < σ.lastProgress) && isAnyBookOpen σ && !σ.isClosingFromScroll
  let r1 : Texture × List Action :=
    if go then
      let σa := { σ with isClosingFromScroll := true, pendingTarget := some p }
      (closeAllOpenBooksWithPromise σa,
       [Action.disableScroll, Action.setClosingFlag, Action.issueCloseAll])
    else (σ, [])
  let r2 : Texture × List Action :=
    if r1.1.isClosingFromScroll = false then
      ({ updateBookPositions cosine sine r1.1 p with canInteract := decide (p = 1) },
       [Action.orbitUpdate p, Action.setCanInteract (decide (p = 1))])
    else (r1.1, [])
  ({ r2.1 with lastProgress := p }, r1.2 ++ r2.2)

/-- Unconditional final placement of every book at the captured target
progress — the end state of the position-transition tweens of the recovery
(these write the transform of every loaded book regardless of flags). -/
def applyTransitionTargetBook (cosine sine : ℚ → ℚ) (t : ℚ) (i : Nat) (b : Book) : Book :=
  let p := placePos cosine sine i t
  { b with position := ⟨p.1, p.2, b.position.z⟩,
           rotation := ⟨t * degToRadPi 90, 0, t * degToRadPi (-28 - 20 * (i : ℚ))⟩ }

/-- Indexed map applying the transition targets. -/
def applyTransitionTargets (cosine sine : ℚ → ℚ) (t : ℚ) :
    Nat → List (Option Book) → List (Option Book)
  | _, [] => []
  | k, ob :: rest =>
    ob.map (applyTransitionTargetBook cosine sine t k) ::
      applyTransitionTargets cosine sine t (k + 1) rest

/-- The `.then` continuation of the recovery close-all: re-enable the
trigger, precompute the target positions at the captured progress (which
stores them in `lastCalculatedPositions`) and start the position
transition. -/
def onCloseAllResolved (cosine sine : ℚ → ℚ) (σ : Texture) : Texture × List Action :=
  match σ.pendingTarget with
  | none => (σ, [])
  | some t =>
    ((calculateBookPositionsForProgress cosine sine σ t).1,
     [Action.enableScroll, Action.startPositionTransition t])

/-- Completion of the position transition: the tweens have driven every book
to its target transform; the `onComplete` handler starts the eased scroll
offset animation toward the captured target progress. -/
def onPositionTransitionComplete (cosine sine : ℚ → ℚ) (σ : Texture) : Texture × List Action :=
  match σ.pendingTarget with
  | none => (σ, [])
  | some t =>
    ({ σ with books := applyTransitionTargets cosine sine t 0 σ.books },
     [Action.startScrollAnimation t])

/-- Completion of the manual scroll animation: its `onComplete` snaps the
scroll offset to the target and clears `isClosingFromScroll` — the only
place in the source where the flag is reset. -/
def onScrollAnimationComplete (σ : Texture) : Texture × List Action :=
  match σ.pendingTarget with
  | none => (σ, [])
  | some _ =>
    ({ σ with isClosingFromScroll := false, pendingTarget := none },
     [Action.clearClosingFlag])

/-- Events driving the scene state machine. -/
inductive Ev where
  | scrollUpdate (p : ℚ)
  | frame (dt : ℚ)
  | canvasClick (hit : Option Nat)
  | canvasMouseMove (hit : Option Nat)
  | closeAllResolved
  | positionTransitionComplete
  | scrollAnimationComplete
deriving DecidableEq, Repr

/-- Event dispatch. -/
def step (cosine sine : ℚ → ℚ) (σ : Texture) : Ev → Texture × List Action
  | .scrollUpdate p => onUpdate cosine sine σ p
  | .frame dt => (tick dt σ, [])
  | .canvasClick hit => (onCanvasClick σ hit, [])
  | .canvasMouseMove hit => (onCanvasMouseMove σ hit, [])
  | .closeAllResolved => onCloseAllResolved cosine sine σ
  | .positionTransitionComplete => onPositionTransitionComplete cosine sine σ
  | .scrollAnimationComplete => onScrollAnimationComplete σ

/-! ### Concrete fixtures used by the per-claim theorems -/

/-- An empty scene state. -/
def baseTexture : Texture :=
  { books := [], checker := .base, fired := [], bookClosePromise := none,
    aggResolvedCount := 0, isClosingFromScroll := false, canInteract := false,
    currentHoveredIndex := -1, lastProgress := 0, pendingTarget := none,
    cameraX := 0, lastCalculatedPositions := [] }

/-- A fully open, settled timeline (`onComplete` already snapped to 1). -/
def tlOpenDone : OpenTimeline :=
  { progress := 1, timeScale := 1, paused := true, reversed := false,
    duration := 3, builtCallback := none }

/-- A fully closed, settled timeline. -/
def tlClosedDone : OpenTimeline :=
  { progress := 0, timeScale := 2, paused := true, reversed := true,
    duration := 3, builtCallback := none }

/-- C1 fixture: an open book whose single clip (duration 10) rests at the
click forward limit 9. -/
def bookC1A : Book :=
  { isOpen := true, isClickPlaying := false, isHoverPlaying := false,
    clips := [⟨9, 1, true, 10⟩], position := ⟨0, 0, 0⟩, rotation := ⟨0, 0, 0⟩,
    openTimeline := some tlOpenDone }

/-- C1 fixture: a second open book with a longer clip (duration 20, at 18),
so it finishes closing later than the first. -/
def bookC1B : Book :=
  { isOpen := true, isClickPlaying := false, isHoverPlaying := false,
    clips := [⟨18, 1, true, 20⟩], position := ⟨0, 0, 0⟩, rotation := ⟨0, 0, 0⟩,
    openTimeline := some tlOpenDone }

/-- C1 fixture: two open books, idle machine. -/
def sigmaC1 : Texture :=
  { baseTexture with
      books := [some bookC1A, some bookC1B],
      canInteract := true, lastProgress := 1 }

/-- The state the C1 run reaches after the close-all and two 9-second
frames: both books fully closed and settled, yet only one completion
counted and the aggregate still pending. -/
def sigmaC1final : Texture :=
  { baseTexture with
    books := [
      some { isOpen := false, isClickPlaying := false, isHoverPlaying := false,
             clips := [⟨0, -1, true, 10⟩], position := ⟨0, 0, 0⟩, rotation := ⟨0, 0, 0⟩,
             openTimeline := some tlClosedDone },
      some { isOpen := false, isClickPlaying := false, isHoverPlaying := false,
             clips := [⟨0, -1, true, 20⟩], position := ⟨0, 0, 0⟩, rotation := ⟨0, 0, 0⟩,
             openTimeline := some tlClosedDone }],
    fired := [.checkAllClosed], bookClosePromise := some ⟨2, 1⟩,
    canInteract := true, lastProgress := 1 }

/-- C2 fixture: the same two open books, toggled closed directly with two
distinct external callbacks (book 0 first, then book 1). -/
def sigmaC2 : Texture :=
  { baseTexture with
      books := [some bookC1A, some bookC1B],
      canInteract := true, lastProgress := 1 }

/-- C2 run start: both books toggled closed, callback 1 for book 0 and
callback 2 for book 1. -/
def sigmaC2run : Texture :=
  toggleBookAnimationWithCallback
    (toggleBookAnimationWithCallback sigmaC2 0 (some (.external 1)))
    1 (some (.external 2))

/-- The state the C2 run reaches once both books have settled closed:
callback 1 fired, callback 2 never fired. -/
def sigmaC2final : Texture :=
  { baseTexture with
    books := [
      some { isOpen := false, isClickPlaying := false, isHoverPlaying := false,
             clips := [⟨0, -1, true, 10⟩], position := ⟨0, 0, 0⟩, rotation := ⟨0, 0, 0⟩,
             openTimeline := some tlClosedDone },
      some { isOpen := false, isClickPlaying := false, isHoverPlaying := false,
             clips := [⟨0, -1, true, 20⟩], position := ⟨0, 0, 0⟩, rotation := ⟨0, 0, 0⟩,
             openTimeline := some tlClosedDone }],
    fired := [.external 1], canInteract := true, lastProgress := 1 }

/-- C5 fixture: a click-playing book with two clips of duration 1, both
already past the forward limit 9/10. -/
def bookC5 : Book :=
  { isOpen := false, isClickPlaying := true, isHoverPlaying := false,
    clips := [⟨19/20, 1, false, 1⟩, ⟨19/20, 1, false, 1⟩],
    position := ⟨0, 0, 0⟩, rotation := ⟨0, 0, 0⟩, openTimeline := none }

/-- C6 fixture: a closed idle book with one clip. -/
def bookC6 : Book :=
  { isOpen := false, isClickPlaying := false, isHoverPlaying := false,
    clips := [⟨0, 1, true, 10⟩], position := ⟨0, 0, 0⟩, rotation := ⟨0, 0, 0⟩,
    openTimeline := none }

/-- C6 fixture: interaction nominally enabled while a scroll-triggered
close-all is in flight. -/
def sigmaC6 : Texture :=
  { baseTexture with
      books := [some bookC6], canInteract := true,
      isClosingFromScroll := true }

/-- C7 fixture: a state with an empty `lastCalculatedPositions` cache. -/
def sigmaC7 : Texture := baseTexture

/-- C4 fixture: a single open book. -/
def bookC4 : Book :=
  { isOpen := true, isClickPlaying := false, isHoverPlaying := false,
    clips := [⟨9, 1, true, 10⟩], position := ⟨3, 4, 5⟩, rotation := ⟨1, 0, 2⟩,
    openTimeline := some tlOpenDone }

def sigmaC4 : Texture :=
  { baseTexture with books := [some bookC4], canInteract := true }

/-- C8 fixture: book 0 closed and idle, book 1 mid-opening (click-playing
forward, not yet open). -/
def bookC8zero : Book :=
  { isOpen := false, isClickPlaying := false, isHoverPlaying := false,
    clips := [⟨0, 1, true, 10⟩], position := ⟨0, 0, 0⟩, rotation := ⟨0, 0, 0⟩,
    openTimeline := none }

def bookC8one : Book :=
  { isOpen := false, isClickPlaying := true, isHoverPlaying := false,
    clips := [⟨5, 1, false, 10⟩], position := ⟨0, 0, 0⟩, rotation := ⟨0, 0, 0⟩,
    openTimeline := some ⟨1/2, 1, false, false, 3, none⟩ }

def sigmaC8 : Texture :=
  { baseTexture with
      books := [some bookC8zero, some bookC8one],
      canInteract := true, lastProgress := 1 }

/-- The state the C8 run reaches after the click on book 0 and five
2-second frames: both books settle fully open. -/
def sigmaC8final : Texture :=
  { baseTexture with
    books := [
      some { isOpen := true, isClickPlaying := false, isHoverPlaying := false,
             clips := [⟨9, 1, true, 10⟩], position := ⟨0, 0, 0⟩, rotation := ⟨0, 0, 0⟩,
             openTimeline := some { progress := 1, timeScale := 1, paused := true,
                                    reversed := false, duration := 3, builtCallback := none } },
      some { isOpen := true, isClickPlaying := false, isHoverPlaying := false,
             clips := [⟨9, 1, true, 10⟩], position := ⟨0, 0, 0⟩, rotation := ⟨0, 0, 0⟩,
             openTimeline := some { progress := 1, timeScale := 1, paused := true,
                                    reversed := false, duration := 3, builtCallback := none } }],
    canInteract := true, lastProgress := 1 }

/-- C9 fixture: one empty book slot. -/
def sigmaC9 : Texture := { baseTexture with books := [none] }

/-- C10 fixture: a closed idle book with one clip. -/
def bookC10 : Book :=
  { isOpen := false, isClickPlaying := false, isHoverPlaying := false,
    clips := [⟨0, 1, true, 10⟩], position := ⟨0, 0, 0⟩, rotation := ⟨0, 0, 0⟩,
    openTimeline := none }

def sigmaC10 : Texture := { baseTexture with books := [some bookC10] }

/-- C3 witness fixture: one open book, interaction enabled, scroll at the
bottom of the pinned range. -/
def sigmaC3w : Texture :=
  { baseTexture with
      books := [some bookC1A], canInteract := true,
      lastProgress := 1 }

/-! ## Helper lemmas -/

theorem getD_set_self {α : Type} (v d : α) :
    ∀ (l : List α) (i : Nat), i < l.length → (l.set i v).getD i d = v := by
  intro l
  induction l with
  | nil => intro i h; simp at h
  | cons x xs ih =>
    intro i h
    cases i with
    | zero => simp [List.set, List.getD]
    | succ j =>
      simp only [List.set, List.length_cons] at h ⊢
      simpa [List.getD] using ih j (by omega)

theorem getD_set_ne {α : Type} (v d : α) :
    ∀ (l : List α) (i j : Nat), i ≠ j → (l.set i v).getD j d = l.getD j d := by
  intro l
  induction l with
  | nil => intro i j _; simp [List.set]
  | cons x xs ih =>
    intro i j hne
    cases i with
    | zero =>
      cases j with
      | zero => exact absurd rfl hne
      | succ m => simp [List.set, List.getD]
    | succ n =>
      cases j with
      | zero => simp [List.set, List.getD]
      | succ m =>
        simp only [List.set, List.getD_cons_succ]
        exact ih n m (by omega)

theorem getD_some_lt {α : Type} (b : α) :
    ∀ (l : List (Option α)) (i : Nat), l.getD i none = some b → i < l.length := by
  intro l
  induction l with
  | nil => intro i h; simp [List.getD] at h
  | cons x xs ih =>
    intro i h
    cases i with
    | zero => simp
    | succ j =>
      simp only [List.getD_cons_succ] at h
      have := ih j h
      simp [List.length_cons]; omega

theorem getBook_setBook_self (σ : Texture) (i : Nat) (b : Book)
    (h : i < σ.books.length) : getBook (setBook σ i b) i = some b := by
  show (σ.books.set i (some b)).getD i none = some b
  exact getD_set_self _ _ _ _ h

theorem getBook_setBook_ne (σ : Texture) (i j : Nat) (b : Book)
    (h : i ≠ j) : getBook (setBook σ i b) j = getBook σ j := by
  show (σ.books.set i (some b)).getD j none = σ.books.getD j none
  exact getD_set_ne _ _ _ _ _ h

theorem getBook_some_lt (σ : Texture) (i : Nat) (b : Book)
    (h : getBook σ i = some b) : i < σ.books.length :=
  getD_some_lt b σ.books i h

/-- `fireCallback` touches only `fired`, `bookClosePromise` and
`aggResolvedCount`. -/
theorem fireCallback_books (σ : Texture) (cb : CallbackId) :
    (fireCallback σ cb).books = σ.books ∧
    (fireCallback σ cb).checker = σ.checker ∧
    (fireCallback σ cb).isClosingFromScroll = σ.isClosingFromScroll ∧
    (fireCallback σ cb).canInteract = σ.canInteract ∧
    (fireCallback σ cb).fired = σ.fired ++ [cb] := by
  cases cb with
  | checkAllClosed =>
    cases h : σ.bookClosePromise with
    | none => simp [fireCallback, h]
    | some a => by_cases ht : a.target ≤ a.closedCount + 1 <;> simp [fireCallback, h, ht]
  | external n => simp [fireCallback]

theorem fireOptCallback_books (σ : Texture) (cb : Option CallbackId) :
    (fireOptCallback σ cb).books = σ.books ∧
    (fireOptCallback σ cb).checker = σ.checker ∧
    (fireOptCallback σ cb).isClosingFromScroll = σ.isClosingFromScroll ∧
    (fireOptCallback σ cb).canInteract = σ.canInteract := by
  cases cb with
  | none => simp [fireOptCallback]
  | some c => exact ⟨(fireCallback_books σ c).1, (fireCallback_books σ c).2.1,
      (fireCallback_books σ c).2.2.1, (fireCallback_books σ c).2.2.2.1⟩

theorem getBook_books_eq {σ τ : Texture} (h : σ.books = τ.books) (j : Nat) :
    getBook σ j = getBook τ j := by
  unfold getBook; rw [h]

theorem cancelHover_flags (b : Book) :
    (cancelHover b).isOpen = b.isOpen ∧
    (cancelHover b).isClickPlaying = b.isClickPlaying ∧
    (cancelHover b).openTimeline = b.openTimeline := by
  by_cases h : b.isHoverPlaying <;> simp [cancelHover, h]

theorem buildTimeline_flags (σ : Texture) (i : Nat) (cb : Option CallbackId) (b : Book) :
    (buildTimeline σ i cb b).isOpen = b.isOpen ∧
    (buildTimeline σ i cb b).isClickPlaying = b.isClickPlaying ∧
    (buildTimeline σ i cb b).clips = b.clips ∧
    (buildTimeline σ i cb b).isHoverPlaying = b.isHoverPlaying := by
  cases h : b.openTimeline <;> simp [buildTimeline, h]

/-- A toggle never alters any other slot of `bookInstances`. -/
theorem toggle_books_other (σ : Texture) (i : Nat) (cb : Option CallbackId)
    (j : Nat) (hj : j ≠ i) :
    getBook (toggleBookAnimationWithCallback σ i cb) j = getBook σ j := by
  unfold toggleBookAnimationWithCallback
  cases hb : getBook σ i with
  | none => exact getBook_books_eq (fireOptCallback_books σ cb).1 j
  | some b0 =>
    by_cases hc : b0.clips = []
    · simp only [hc, if_pos rfl]
      exact getBook_books_eq (fireOptCallback_books σ cb).1 j
    · simp only [hc, if_neg (by simpa using hc)]
      by_cases ho : (buildTimeline σ i cb (cancelHover b0)).isOpen = false
      · simp only [ho, if_pos rfl]
        exact getBook_setBook_ne σ i j _ (fun h => hj h.symm)
      · simp only [ho, if_neg ho]
        exact getBook_setBook_ne σ i j _ (fun h => hj h.symm)

/-- A toggle never changes the number of book slots. -/
theorem toggle_books_length (σ : Texture) (i : Nat) (cb : Option CallbackId) :
    (toggleBookAnimationWithCallback σ i cb).books.length = σ.books.length := by
  unfold toggleBookAnimationWithCallback
  cases hb : getBook σ i with
  | none => exact congrArg List.length (fireOptCallback_books σ cb).1
  | some b0 =>
    by_cases hc : b0.clips = []
    · simp only [hc, if_pos rfl]
      exact congrArg List.length (fireOptCallback_books σ cb).1
    · simp only [hc, if_neg (by simpa using hc)]
      by_cases ho : (buildTimeline σ i cb (cancelHover b0)).isOpen = false
      · simp only [ho, if_pos rfl]; simp [setBook, List.length_set]
      · simp only [ho, if_neg ho]; simp [setBook, List.length_set]

/-- Workhorse description of the toggle on a present book with clips: it
sets `isClickPlaying`, drives every action forward (book closed) or
backward (book open), and leaves `isOpen` untouched. -/
theorem toggle_getBook_self (σ : Texture) (i : Nat) (cb : Option CallbackId)
    (b0 : Book) (hb : getBook σ i = some b0) (hc : b0.clips ≠ []) :
    ∃ b2, getBook (toggleBookAnimationWithCallback σ i cb) i = some b2 ∧
      b2.isClickPlaying = true ∧ b2.isOpen = b0.isOpen ∧
      (b0.isOpen = true → ∀ c ∈ b2.clips, c.timeScale = -1 ∧ c.paused = false) ∧
      (b0.isOpen = false → ∀ c ∈ b2.clips, c.timeScale = 1 ∧ c.paused = false) := by
  have hlt : i < σ.books.length := getBook_some_lt σ i b0 hb
  have hbo := (buildTimeline_flags σ i cb (cancelHover b0)).1
  have hco := (cancelHover_flags b0).1
  simp only [toggleBookAnimationWithCallback, hb, if_neg hc]
  by_cases ho : (buildTimeline σ i cb (cancelHover b0)).isOpen = false
  · rw [if_pos ho]
    refine ⟨_, getBook_setBook_self σ i _ hlt, rfl, ?_, ?_, ?_⟩
    · show (buildTimeline σ i cb (cancelHover b0)).isOpen = b0.isOpen
      rw [hbo, hco]
    · intro hop; rw [hbo, hco] at ho; rw [hop] at ho; cases ho
    · intro _ c hm
      simp only [List.mem_map] at hm
      obtain ⟨c0, _, hc0⟩ := hm
      exact ⟨by rw [← hc0], by rw [← hc0]⟩
  · rw [if_neg ho]
    refine ⟨_, getBook_setBook_self σ i _ hlt, rfl, ?_, ?_, ?_⟩
    · show (buildTimeline σ i cb (cancelHover b0)).isOpen = b0.isOpen
      rw [hbo, hco]
    · intro _ c hm
      simp only [List.mem_map] at hm
      obtain ⟨c0, _, hc0⟩ := hm
      exact ⟨by rw [← hc0], by rw [← hc0]⟩
    · intro hop
      rw [hbo, hco] at ho
      exact absurd hop (by simpa using ho)

/-- A toggle never changes the open flag of any book (its own included). -/
theorem toggle_isOpen_map (σ : Texture) (i : Nat) (cb : Option CallbackId) (j : Nat) :
    Option.map Book.isOpen (getBook (toggleBookAnimationWithCallback σ i cb) j) =
      Option.map Book.isOpen (getBook σ j) := by
  by_cases hj : j = i
  · subst hj
    cases hb : getBook σ j with
    | none =>
      unfold toggleBookAnimationWithCallback
      rw [hb]
      rw [getBook_books_eq (fireOptCallback_books σ cb).1 j, hb]
    | some b0 =>
      by_cases hc : b0.clips = []
      · simp only [toggleBookAnimationWithCallback, hb, if_pos hc]
        rw [getBook_books_eq (fireOptCallback_books σ cb).1 j, hb]
      · obtain ⟨b2, hg, _, hio, _, _⟩ := toggle_getBook_self σ j cb b0 hb hc
        rw [hg]
        simp [hio]
  · rw [toggle_books_other σ i cb j hj]

theorem toggle_scroll_flags (σ : Texture) (i : Nat) (cb : Option CallbackId) :
    (toggleBookAnimationWithCallback σ i cb).isClosingFromScroll = σ.isClosingFromScroll ∧
    (toggleBookAnimationWithCallback σ i cb).canInteract = σ.canInteract := by
  unfold toggleBookAnimationWithCallback
  cases hb : getBook σ i with
  | none => exact ⟨(fireOptCallback_books σ cb).2.2.1, (fireOptCallback_books σ cb).2.2.2⟩
  | some b0 =>
    by_cases hc : b0.clips = []
    · simp only [hc, if_pos rfl]
      exact ⟨(fireOptCallback_books σ cb).2.2.1, (fireOptCallback_books σ cb).2.2.2⟩
    · simp only [hc, if_neg (by simpa using hc)]
      by_cases ho : (buildTimeline σ i cb (cancelHover b0)).isOpen = false
      · simp only [ho, if_pos rfl, setBook]; exact ⟨rfl, rfl⟩
      · simp only [ho, if_neg ho, setBook]; exact ⟨rfl, rfl⟩

/-- Generic preservation of a projection through a fold. -/
theorem foldl_pres {α β : Type} (f : Texture → α → Texture) (proj : Texture → β)
    (hf : ∀ s a, proj (f s a) = proj s) :
    ∀ (l : List α) (s : Texture), proj (List.foldl f s l) = proj s := by
  intro l
  induction l with
  | nil => intro s; rfl
  | cons a as ih => intro s; rw [List.foldl_cons, ih, hf]

theorem runChecker_scroll_flags :
    ∀ (ch : Checker) (σ : Texture) (k : Nat),
      (runChecker ch σ k).isClosingFromScroll = σ.isClosingFromScroll ∧
      (runChecker ch σ k).canInteract = σ.canInteract ∧
      (runChecker ch σ k).books.length = σ.books.length := by
  intro ch
  induction ch with
  | base =>
    intro σ k
    unfold runChecker
    cases hb : getBook σ k with
    | none => exact ⟨rfl, rfl, rfl⟩
    | some b => simp [setBook, List.length_set]
  | wrap i cb inner ih =>
    intro σ k
    unfold runChecker
    by_cases hk : k = i
    · rw [if_pos hk]
      cases hb : getBook (runChecker inner σ k) i with
      | none => simp only [hb]; exact ih σ k
      | some b =>
        simp only [hb]
        by_cases hcond : b.isClickPlaying = false ∧ b.isOpen = false
        · rw [if_pos hcond]
          refine ⟨?_, ?_, ?_⟩
          · rw [(fireOptCallback_books _ cb).2.2.1]; exact (ih σ k).1
          · rw [(fireOptCallback_books _ cb).2.2.2]; exact (ih σ k).2.1
          · rw [congrArg List.length (fireOptCallback_books _ cb).1]; exact (ih σ k).2.2
        · rw [if_neg hcond]; exact ih σ k
    · rw [if_neg hk]; exact ih σ k

theorem tickBook_scroll_flags (dt : ℚ) (σ : Texture) (i : Nat) :
    (tickBook dt σ i).isClosingFromScroll = σ.isClosingFromScroll ∧
    (tickBook dt σ i).canInteract = σ.canInteract ∧
    (tickBook dt σ i).books.length = σ.books.length := by
  unfold tickBook
  cases hb : getBook σ i with
  | none => exact ⟨rfl, rfl, rfl⟩
  | some b =>
    by_cases hp : b.isClickPlaying = true ∨ b.isHoverPlaying = true
    · simp only [if_pos hp]
      refine ⟨?_, ?_, ?_⟩
      · rw [(runChecker_scroll_flags _ _ i).1]; rfl
      · rw [(runChecker_scroll_flags _ _ i).2.1]; rfl
      · rw [(runChecker_scroll_flags _ _ i).2.2]; simp [setBook, List.length_set]
    · simp [if_neg hp]

theorem tickTimelineBook_scroll_flags (dt : ℚ) (σ : Texture) (i : Nat) :
    (tickTimelineBook dt σ i).isClosingFromScroll = σ.isClosingFromScroll ∧
    (tickTimelineBook dt σ i).canInteract = σ.canInteract ∧
    (tickTimelineBook dt σ i).books.length = σ.books.length := by
  unfold tickTimelineBook
  split
  · split
    · split
      · exact ⟨rfl, rfl, rfl⟩
      · refine ⟨?_, ?_, ?_⟩
        · rw [(fireOptCallback_books _ _).2.2.1]; rfl
        · rw [(fireOptCallback_books _ _).2.2.2]; rfl
        · rw [congrArg List.length (fireOptCallback_books _ _).1]
          simp [setBook, List.length_set]
    · exact ⟨rfl, rfl, rfl⟩
  · exact ⟨rfl, rfl, rfl⟩

theorem tick_scroll_flags (dt : ℚ) (σ : Texture) :
    (tick dt σ).isClosingFromScroll = σ.isClosingFromScroll ∧
    (tick dt σ).canInteract = σ.canInteract := by
  unfold tick
  constructor
  · rw [foldl_pres _ Texture.isClosingFromScroll (fun s a => (tickTimelineBook_scroll_flags dt s a).1)]
    rw [foldl_pres _ Texture.isClosingFromScroll (fun s a => (tickBook_scroll_flags dt s a).1)]
  · rw [foldl_pres _ Texture.canInteract (fun s a => (tickTimelineBook_scroll_flags dt s a).2.1)]
    rw [foldl_pres _ Texture.canInteract (fun s a => (tickBook_scroll_flags dt s a).2.1)]

theorem closeAll_scroll_flags (σ : Texture) :
    (closeAllOpenBooksWithPromise σ).isClosingFromScroll = σ.isClosingFromScroll ∧
    (closeAllOpenBooksWithPromise σ).canInteract = σ.canInteract := by
  unfold closeAllOpenBooksWithPromise
  by_cases h1 : σ.bookClosePromise.isSome = true
  · constructor <;> rw [if_pos h1]
  · simp only [if_neg h1]
    by_cases h2 : isAnyBookOpen σ = false
    · constructor <;> rw [if_pos h2]
    · simp only [if_neg h2]
      by_cases h3 : (openBookIndices σ).isEmpty = true
      · constructor <;> rw [if_pos h3]
      · simp only [if_neg h3]
        constructor
        · rw [foldl_pres _ Texture.isClosingFromScroll
            (fun s a => (toggle_scroll_flags s a (some .checkAllClosed)).1)]
        · rw [foldl_pres _ Texture.canInteract
            (fun s a => (toggle_scroll_flags s a (some .checkAllClosed)).2)]

/-! ### Clamp-check characterization -/

/-- The click-mode forward threshold condition of `checkAnimationProgress`. -/
def crossesClickForward (c : Clip) : Prop :=
  0 < c.timeScale ∧ c.originalDuration * clickPlayPercentage ≤ c.time

/-- The hover-mode forward threshold condition. -/
def crossesHoverForward (c : Clip) : Prop :=
  0 < c.timeScale ∧ c.originalDuration * hoverPlayPercentage ≤ c.time

/-- The (shared) backward threshold condition. -/
def crossesBack (c : Clip) : Prop :=
  c.timeScale < 0 ∧ c.time ≤ 0

/-- Pause and snap at the click-mode forward limit. -/
def clampClickForward (c : Clip) : Clip :=
  { c with paused := true, time := c.originalDuration * clickPlayPercentage }

/-- Pause and snap at the hover-mode forward limit. -/
def clampHoverForward (c : Clip) : Clip :=
  { c with paused := true, time := c.originalDuration * hoverPlayPercentage }

/-- Pause and snap at 0. -/
def clampAtZero (c : Clip) : Clip :=
  { c with paused := true, time := 0 }

theorem checkClip_click_forward (o : Bool) (c : Clip) (h : crossesClickForward c) :
    checkClip ⟨o, true, false⟩ c = (⟨true, false, false⟩, clampClickForward c) := by
  obtain ⟨h1, h2⟩ := h
  simp [checkClip, clampClickForward, h1, h2]

theorem checkClip_click_back (o : Bool) (c : Clip) (h : crossesBack c) :
    checkClip ⟨o, true, false⟩ c = (⟨false, false, false⟩, clampAtZero c) := by
  obtain ⟨h1, h2⟩ := h
  have hpos : ¬(0 < c.timeScale) := not_lt.mpr (le_of_lt h1)
  simp [checkClip, clampAtZero, h1, h2, hpos]

theorem checkClip_click_skip (o : Bool) (c : Clip)
    (h1 : ¬crossesClickForward c) (h2 : ¬crossesBack c) :
    checkClip ⟨o, true, false⟩ c = (⟨o, true, false⟩, c) := by
  unfold crossesClickForward at h1
  unfold crossesBack at h2
  simp [checkClip, h1, h2]

theorem checkClip_hover_forward (o : Bool) (c : Clip) (h : crossesHoverForward c) :
    checkClip ⟨o, false, true⟩ c = (⟨o, false, false⟩, clampHoverForward c) := by
  obtain ⟨h1, h2⟩ := h
  simp [checkClip, clampHoverForward, h1, h2]

theorem checkClip_hover_back (o : Bool) (c : Clip) (h : crossesBack c) :
    checkClip ⟨o, false, true⟩ c = (⟨o, false, false⟩, clampAtZero c) := by
  obtain ⟨h1, h2⟩ := h
  have hpos : ¬(0 < c.timeScale) := not_lt.mpr (le_of_lt h1)
  simp [checkClip, clampAtZero, h1, h2, hpos]

theorem checkClip_hover_skip (o : Bool) (c : Clip)
    (h1 : ¬crossesHoverForward c) (h2 : ¬crossesBack c) :
    checkClip ⟨o, false, true⟩ c = (⟨o, false, true⟩, c) := by
  unfold crossesHoverForward at h1
  unfold crossesBack at h2
  simp [checkClip, h1, h2]

/-- With both playing flags down the check leaves everything unchanged. -/
theorem checkClip_idle (fl : BookFlags) (c : Clip)
    (h1 : fl.isClickPlaying = false) (h2 : fl.isHoverPlaying = false) :
    checkClip fl c = (fl, c) := by
  simp [checkClip, h1, h2]

theorem checkClips_idle (a : Bool) :
    ∀ cs : List Clip, checkClips ⟨a, false, false⟩ cs = (⟨a, false, false⟩, cs) := by
  intro cs
  induction cs with
  | nil => rfl
  | cons c rest ih =>
    simp only [checkClips, checkClip_idle ⟨a, false, false⟩ c rfl rfl, ih]

/-- A prefix of clips on which no click-mode threshold fires passes the fold
through unchanged. -/
theorem checkClips_click_passthrough (o : Bool) (rest : List Clip) :
    ∀ cs1 : List Clip, (∀ x ∈ cs1, ¬crossesClickForward x ∧ ¬crossesBack x) →
      checkClips ⟨o, true, false⟩ (cs1 ++ rest) =
        ((checkClips ⟨o, true, false⟩ rest).1,
         cs1 ++ (checkClips ⟨o, true, false⟩ rest).2) := by
  intro cs1
  induction cs1 with
  | nil => intro _; simp
  | cons c cs ih =>
    intro h
    have hc := h c (List.mem_cons_self c cs)
    have hcs := fun x hx => h x (List.mem_cons_of_mem c hx)
    simp only [List.cons_append, checkClips, checkClip_click_skip o c hc.1 hc.2]
    simp [ih hcs]

theorem checkClips_hover_passthrough (o : Bool) (rest : List Clip) :
    ∀ cs1 : List Clip, (∀ x ∈ cs1, ¬crossesHoverForward x ∧ ¬crossesBack x) →
      checkClips ⟨o, false, true⟩ (cs1 ++ rest) =
        ((checkClips ⟨o, false, true⟩ rest).1,
         cs1 ++ (checkClips ⟨o, false, true⟩ rest).2) := by
  intro cs1
  induction cs1 with
  | nil => intro _; simp
  | cons c cs ih =>
    intro h
    have hc := h c (List.mem_cons_self c cs)
    have hcs := fun x hx => h x (List.mem_cons_of_mem c hx)
    simp only [List.cons_append, checkClips, checkClip_hover_skip o c hc.1 hc.2]
    simp [ih hcs]

/-- When `isClickPlaying` is already down, no later clip of the pass can
change `isOpen` or raise the flag again. -/
theorem checkClip_clickFalse (fl : BookFlags) (c : Clip)
    (h : fl.isClickPlaying = false) :
    (checkClip fl c).1.isOpen = fl.isOpen ∧
    (checkClip fl c).1.isClickPlaying = false := by
  simp only [checkClip, h]
  split_ifs <;> simp_all

theorem checkClips_clickFalse :
    ∀ (cs : List Clip) (fl : BookFlags), fl.isClickPlaying = false →
      (checkClips fl cs).1.isOpen = fl.isOpen ∧
      (checkClips fl cs).1.isClickPlaying = false := by
  intro cs
  induction cs with
  | nil => intro fl h; exact ⟨rfl, h⟩
  | cons c rest ih =>
    intro fl h
    obtain ⟨ho, hc⟩ := checkClip_clickFalse fl c h
    obtain ⟨ho2, hc2⟩ := ih (checkClip fl c).1 hc
    constructor
    · show (checkClips (checkClip fl c).1 rest).1.isOpen = fl.isOpen
      rw [ho2, ho]
    · show (checkClips (checkClip fl c).1 rest).1.isClickPlaying = false
      exact hc2

/-- Either the click branch fires (clearing the flag) or it leaves both
`isOpen` and `isClickPlaying` alone. -/
theorem checkClip_click_dichotomy (fl : BookFlags) (c : Clip) :
    (checkClip fl c).1.isClickPlaying = false ∨
    ((checkClip fl c).1.isOpen = fl.isOpen ∧
     (checkClip fl c).1.isClickPlaying = fl.isClickPlaying) := by
  by_cases h : fl.isClickPlaying = false
  · exact Or.inl (checkClip_clickFalse fl c h).2
  · simp only [checkClip, eq_true_of_ne_false h]
    split_ifs <;> simp_all

/-- Book-level: whenever the clamp pass changes `isOpen`, the pass entered
with `isClickPlaying` up and leaves with it down. -/
theorem checkClips_isOpen_change :
    ∀ (cs : List Clip) (fl : BookFlags), (checkClips fl cs).1.isOpen ≠ fl.isOpen →
      fl.isClickPlaying = true ∧ (checkClips fl cs).1.isClickPlaying = false := by
  intro cs
  induction cs with
  | nil => intro fl h; exact absurd rfl h
  | cons c rest ih =>
    intro fl h
    by_cases hf : fl.isClickPlaying = false
    · exact absurd (checkClips_clickFalse (c :: rest) fl hf).1 h
    · refine ⟨eq_true_of_ne_false hf, ?_⟩
      rcases checkClip_click_dichotomy fl c with hcf | ⟨ho, _⟩
      · show (checkClips (checkClip fl c).1 rest).1.isClickPlaying = false
        exact (checkClips_clickFalse rest (checkClip fl c).1 hcf).2
      · show (checkClips (checkClip fl c).1 rest).1.isClickPlaying = false
        apply (ih (checkClip fl c).1 _).2
        intro hx
        rw [ho] at hx
        exact h hx


/-! ## Claim theorems -/

/-- Helper: reading through the indexed orbit update. -/
theorem updateBooksFrom_getD (cosine sine : ℚ → ℚ) (p : ℚ) :
    ∀ (bs : List (Option Book)) (k i : Nat),
      (updateBooksFrom cosine sine p k bs).getD i none =
        (bs.getD i none).map (updateBook cosine sine p (k + i)) := by
  intro bs
  induction bs with
  | nil => intro k i; simp [updateBooksFrom, List.getD]
  | cons ob rest ih =>
    intro k i
    cases i with
    | zero => simp [updateBooksFrom, List.getD]
    | succ j =>
      simp only [updateBooksFrom, List.getD_cons_succ, ih (k + 1) j]
      have : k + 1 + j = k + (j + 1) := by omega
      rw [this]

/-- Claim C4: a scroll-driven orbit placement update leaves every book with
`isOpen` or `isClickPlaying` raised completely untouched, and writes the
orbit transform to every other book. -/
theorem c4_orbit_transform_ownership (cosine sine : ℚ → ℚ) (σ : Texture)
    (p : ℚ) (i : Nat) (b : Book) (h : getBook σ i = some b) :
    ((b.isOpen = true ∨ b.isClickPlaying = true) →
      getBook (updateBookPositions cosine sine σ p) i = some b) ∧
    (b.isOpen = false → b.isClickPlaying = false →
      getBook (updateBookPositions cosine sine σ p) i = some
        { b with
          position := ⟨(placePos cosine sine i p).1, (placePos cosine sine i p).2,
                       b.position.z⟩,
          rotation := ⟨p * degToRadPi 90, 0,
                       p * degToRadPi (-28 - 20 * (i : ℚ))⟩ }) := by
  have hg : getBook (updateBookPositions cosine sine σ p) i =
      (getBook σ i).map (updateBook cosine sine p i) := by
    show (updateBooksFrom cosine sine p 0 σ.books).getD i none = _
    rw [updateBooksFrom_getD cosine sine p σ.books 0 i, Nat.zero_add]
    rfl
  rw [hg, h]
  constructor
  · intro hflag
    show some (updateBook cosine sine p i b) = some b
    unfold updateBook
    rw [if_pos (by simpa using hflag)]
  · intro h1 h2
    show some (updateBook cosine sine p i b) = _
    unfold updateBook
    rw [if_neg (by simp [h1, h2])]

/-- Witness for C4 on the concrete open book fixture. -/
theorem c4_witness :
    getBook (updateBookPositions (fun _ => 0) (fun _ => 0) sigmaC4 (1/2)) 0 =
      some bookC4 :=
  (c4_orbit_transform_ownership (fun _ => 0) (fun _ => 0) sigmaC4 (1/2) 0 bookC4
    rfl).1 (Or.inl rfl)

/-- Claim C9: toggling an absent slot or a clipless book changes nothing
except immediately invoking the supplied callback, exactly once. -/
theorem c9_toggle_missing_or_clipless (σ : Texture) (i : Nat)
    (cb : Option CallbackId)
    (h : getBook σ i = none ∨ ∃ b, getBook σ i = some b ∧ b.clips = []) :
    toggleBookAnimationWithCallback σ i cb = fireOptCallback σ cb ∧
    (fireOptCallback σ cb).books = σ.books ∧
    (fireOptCallback σ cb).checker = σ.checker ∧
    (∀ c, (fireCallback σ c).fired = σ.fired ++ [c]) ∧
    toggleBookAnimationWithCallback σ i none = σ := by
  have key : ∀ cb2 : Option CallbackId,
      toggleBookAnimationWithCallback σ i cb2 = fireOptCallback σ cb2 := by
    intro cb2
    rcases h with hn | ⟨b, hb, hc⟩
    · simp [toggleBookAnimationWithCallback, hn]
    · simp [toggleBookAnimationWithCallback, hb, hc]
  exact ⟨key cb, (fireOptCallback_books σ cb).1, (fireOptCallback_books σ cb).2.1,
    fun c => (fireCallback_books σ c).2.2.2.2, key none⟩

/-- Witness for C9 on the empty slot fixture. -/
theorem c9_witness :
    toggleBookAnimationWithCallback sigmaC9 0 (some (.external 7)) =
      fireOptCallback sigmaC9 (some (.external 7)) ∧
    toggleBookAnimationWithCallback sigmaC9 0 none = sigmaC9 := by
  have h := c9_toggle_missing_or_clipless sigmaC9 0 (some (.external 7))
    (Or.inl rfl)
  exact ⟨h.1, h.2.2.2.2⟩

/-- Claim C7 counterexample: the orbit precomputation is not free of side
effects — it overwrites `lastCalculatedPositions`. -/
theorem c7_counterexample :
    (calculateBookPositionsForProgress (fun _ => 0) (fun _ => 0) sigmaC7 0).1 ≠
      sigmaC7 := by
  intro h
  have h2 := congrArg Texture.lastCalculatedPositions h
  simp only [calculateBookPositionsForProgress, calcPositions, sigmaC7,
    baseTexture] at h2
  exact absurd (List.map_eq_nil_iff.mp h2) (by simp [List.range_eq_nil])

/-- Claim C7 (amended): the computation is deterministic — its output
depends only on progress, never on the machine state — its only state
effect is caching the returned list in `lastCalculatedPositions`, and the
interpolated angles hit the configured bounds at progress 0 and 1. -/
theorem c7_place_deterministic (cosine sine : ℚ → ℚ) (σ τ : Texture)
    (p : ℚ) (i : Nat) (h : i < 4) :
    ((calculateBookPositionsForProgress cosine sine σ p).2 =
      (calculateBookPositionsForProgress cosine sine τ p).2) ∧
    ((calculateBookPositionsForProgress cosine sine σ p).1 =
      { σ with lastCalculatedPositions := calcPositions cosine sine p }) ∧
    (angleX i 0 = (angleConfigs.getD i ⟨0, 0, 0⟩).start ∧
     angleX i 1 = (angleConfigs.getD i ⟨0, 0, 0⟩).endX ∧
     angleY i 0 = (angleConfigs.getD i ⟨0, 0, 0⟩).start ∧
     angleY i 1 = (angleConfigs.getD i ⟨0, 0, 0⟩).endY) ∧
    (placePos cosine sine i 0 =
      ((ellipseConfigs.getD i ⟨0, 0, 0, 0⟩).centerX +
         (ellipseConfigs.getD i ⟨0, 0, 0, 0⟩).radiusX *
           cosine (angleConfigs.getD i ⟨0, 0, 0⟩).start,
       (ellipseConfigs.getD i ⟨0, 0, 0, 0⟩).centerY +
         (ellipseConfigs.getD i ⟨0, 0, 0, 0⟩).radiusY *
           sine (angleConfigs.getD i ⟨0, 0, 0⟩).start)) ∧
    (placePos cosine sine i 1 =
      ((ellipseConfigs.getD i ⟨0, 0, 0, 0⟩).centerX +
         (ellipseConfigs.getD i ⟨0, 0, 0, 0⟩).radiusX *
           cosine (angleConfigs.getD i ⟨0, 0, 0⟩).endX,
       (ellipseConfigs.getD i ⟨0, 0, 0, 0⟩).centerY +
         (ellipseConfigs.getD i ⟨0, 0, 0, 0⟩).radiusY *
           sine (angleConfigs.getD i ⟨0, 0, 0⟩).endY)) := by
  have hx0 : angleX i 0 = (angleConfigs.getD i ⟨0, 0, 0⟩).start := by
    simp [angleX]
  have hx1 : angleX i 1 = (angleConfigs.getD i ⟨0, 0, 0⟩).endX := by
    simp [angleX]
  have hy0 : angleY i 0 = (angleConfigs.getD i ⟨0, 0, 0⟩).start := by
    simp [angleY]
  have hy1 : angleY i 1 = (angleConfigs.getD i ⟨0, 0, 0⟩).endY := by
    simp [angleY]
  refine ⟨rfl, rfl, ⟨hx0, hx1, hy0, hy1⟩, ?_, ?_⟩
  · unfold placePos; rw [hx0, hy0]
  · unfold placePos; rw [hx1, hy1]

/-- Witness for C7 (amended) at index 1 and progress 0. -/
theorem c7_witness :
    angleX 1 0 = (angleConfigs.getD 1 ⟨0, 0, 0⟩).start ∧
    angleX 1 1 = (angleConfigs.getD 1 ⟨0, 0, 0⟩).endX :=
  ⟨(c7_place_deterministic (fun _ => 0) (fun _ => 0) sigmaC7 sigmaC7 0 1
      (by norm_num)).2.2.1.1,
   (c7_place_deterministic (fun _ => 0) (fun _ => 0) sigmaC7 sigmaC7 0 1
      (by norm_num)).2.2.1.2.1⟩

/-- Claim C6 (amended): click routing is a no-op unless interaction is
enabled and no scroll-triggered close-all is in flight; hover routing is
gated on `canInteract` alone (it is NOT gated on the close-all flag). -/
theorem c6_gating (σ : Texture) (hit : Option Nat) :
    ((σ.canInteract = false ∨ σ.isClosingFromScroll = true) →
      onCanvasClick σ hit = σ) ∧
    (σ.canInteract = false → onCanvasMouseMove σ hit = σ) := by
  constructor
  · intro h
    unfold onCanvasClick
    rw [if_pos (by rcases h with h | h <;> simp [h])]
  · intro h
    unfold onCanvasMouseMove
    rw [if_pos h]

/-- Witness for C6 (amended): with interaction disabled both routers are
no-ops. -/
theorem c6_witness :
    onCanvasClick baseTexture (some 0) = baseTexture ∧
    onCanvasMouseMove baseTexture (some 0) = baseTexture :=
  ⟨(c6_gating baseTexture (some 0)).1 (Or.inl rfl),
   (c6_gating baseTexture (some 0)).2 rfl⟩

/-- Claim C6 counterexample: while a scroll-triggered close-all is in
flight (with `canInteract` still true, as the recovery path leaves it),
the click router is a no-op but the hover router is NOT — it retargets the
hovered index and starts a hover animation. -/
theorem c6_counterexample :
    sigmaC6.isClosingFromScroll = true ∧
    sigmaC6.canInteract = true ∧
    onCanvasClick sigmaC6 (some 0) = sigmaC6 ∧
    (onCanvasMouseMove sigmaC6 (some 0)).currentHoveredIndex = 0 ∧
    onCanvasMouseMove sigmaC6 (some 0) ≠ sigmaC6 := by
  refine ⟨rfl, rfl, ?_, ?_, ?_⟩
  · unfold onCanvasClick
    rw [if_pos (Or.inr rfl :
      sigmaC6.canInteract = false ∨ sigmaC6.isClosingFromScroll = true)]
  · norm_num [onCanvasMouseMove, clearHoveredBook, setHoveredBook,
      animateToFraction, getBook, setBook, sigmaC6, bookC6, baseTexture,
      hoverPlayPercentage]
  · intro h
    have h2 := congrArg Texture.currentHoveredIndex h
    norm_num [onCanvasMouseMove, clearHoveredBook, setHoveredBook,
      animateToFraction, getBook, setBook, sigmaC6, bookC6, baseTexture,
      hoverPlayPercentage] at h2


/-- Claim C5 counterexample: with two clips both past the click forward
limit, only the first is paused and snapped; the second stays un-paused,
still advancing forward, with its time beyond the limit, because the first
clamp already cleared `isClickPlaying` mid-loop. -/
theorem c5_counterexample :
    (checkAnimationProgress bookC5).clips =
      [⟨9/10, 1, true, 1⟩, ⟨19/20, 1, false, 1⟩] ∧
    (checkAnimationProgress bookC5).isClickPlaying = false ∧
    (checkAnimationProgress bookC5).isOpen = true ∧
    (9 : ℚ)/10 * clickPlayPercentage ≤ 19/20 ∧ (9 : ℚ)/10 < 19/20 := by
  refine ⟨?_, ?_, ?_, ?_, ?_⟩ <;>
    norm_num [checkAnimationProgress, checkClips, checkClip, bookC5,
      clickPlayPercentage, hoverPlayPercentage]

/-- Claim C5 (amended): the per-frame clamp pauses and snaps exactly the
first clip (in clip order) whose active-mode threshold condition holds,
updating the book flags at that moment; all clips after it are left
untouched in that pass because the playing flag is already down. -/
theorem c5_clamp_first_crossing (o : Bool) (cs1 cs2 : List Clip) (c : Clip) :
    ((∀ x ∈ cs1, ¬crossesClickForward x ∧ ¬crossesBack x) →
      crossesClickForward c →
      checkClips ⟨o, true, false⟩ (cs1 ++ c :: cs2) =
        (⟨true, false, false⟩, cs1 ++ clampClickForward c :: cs2)) ∧
    ((∀ x ∈ cs1, ¬crossesClickForward x ∧ ¬crossesBack x) → crossesBack c →
      checkClips ⟨o, true, false⟩ (cs1 ++ c :: cs2) =
        (⟨false, false, false⟩, cs1 ++ clampAtZero c :: cs2)) ∧
    ((∀ x ∈ cs1, ¬crossesHoverForward x ∧ ¬crossesBack x) →
      crossesHoverForward c →
      checkClips ⟨o, false, true⟩ (cs1 ++ c :: cs2) =
        (⟨o, false, false⟩, cs1 ++ clampHoverForward c :: cs2)) ∧
    ((∀ x ∈ cs1, ¬crossesHoverForward x ∧ ¬crossesBack x) → crossesBack c →
      checkClips ⟨o, false, true⟩ (cs1 ++ c :: cs2) =
        (⟨o, false, false⟩, cs1 ++ clampAtZero c :: cs2)) := by
  refine ⟨?_, ?_, ?_, ?_⟩
  · intro hpre hc
    rw [checkClips_click_passthrough o (c :: cs2) cs1 hpre]
    simp only [checkClips, checkClip_click_forward o c hc, checkClips_idle]
  · intro hpre hc
    rw [checkClips_click_passthrough o (c :: cs2) cs1 hpre]
    simp only [checkClips, checkClip_click_back o c hc, checkClips_idle]
  · intro hpre hc
    rw [checkClips_hover_passthrough o (c :: cs2) cs1 hpre]
    simp only [checkClips, checkClip_hover_forward o c hc, checkClips_idle]
  · intro hpre hc
    rw [checkClips_hover_passthrough o (c :: cs2) cs1 hpre]
    simp only [checkClips, checkClip_hover_back o c hc, checkClips_idle]

/-- Witness for C5 (amended): a single crossing clip in click mode is
clamped exactly as the original claim describes. -/
theorem c5_witness :
    checkClips ⟨false, true, false⟩ [⟨19/20, 1, false, 1⟩] =
      (⟨true, false, false⟩, [clampClickForward ⟨19/20, 1, false, 1⟩]) := by
  have h := (c5_clamp_first_crossing false [] [] ⟨19/20, 1, false, 1⟩).1
    (by simp)
    (by constructor <;> norm_num [clickPlayPercentage])
  simpa using h


/-- Claim C10: `isOpen` changes only in the clamp check, and any step that
changes it simultaneously clears `isClickPlaying`; the toggle raises
`isClickPlaying` without touching `isOpen`; the mixer advance, the orbit
update and the hover animation never touch either flag. -/
theorem c10_flag_discipline (σ : Texture) (i : Nat) (cb : Option CallbackId)
    (b : Book) :
    (Option.map Book.isOpen (getBook (toggleBookAnimationWithCallback σ i cb) i) =
      Option.map Book.isOpen (getBook σ i)) ∧
    (getBook σ i = some b → b.clips ≠ [] →
      ∃ b2, getBook (toggleBookAnimationWithCallback σ i cb) i = some b2 ∧
        b2.isClickPlaying = true ∧ b2.isOpen = b.isOpen) ∧
    (∀ b0 : Book, (checkAnimationProgress b0).isOpen ≠ b0.isOpen →
      b0.isClickPlaying = true ∧
      (checkAnimationProgress b0).isClickPlaying = false) ∧
    (∀ (dt : ℚ) (b0 : Book), (mixerUpdate dt b0).isOpen = b0.isOpen ∧
      (mixerUpdate dt b0).isClickPlaying = b0.isClickPlaying) ∧
    (∀ (co si : ℚ → ℚ) (p : ℚ) (j : Nat) (b0 : Book),
      (updateBook co si p j b0).isOpen = b0.isOpen ∧
      (updateBook co si p j b0).isClickPlaying = b0.isClickPlaying) ∧
    (∀ (b0 : Book) (f : ℚ), (animateToFraction b0 f).isOpen = b0.isOpen ∧
      (animateToFraction b0 f).isClickPlaying = b0.isClickPlaying) := by
  refine ⟨toggle_isOpen_map σ i cb i, ?_, ?_, ?_, ?_, ?_⟩
  · intro hb hc
    obtain ⟨b2, hg, hcp, hio, _, _⟩ := toggle_getBook_self σ i cb b hb hc
    exact ⟨b2, hg, hcp, hio⟩
  · intro b0 hne
    exact checkClips_isOpen_change b0.clips
      ⟨b0.isOpen, b0.isClickPlaying, b0.isHoverPlaying⟩ hne
  · intro dt b0; exact ⟨rfl, rfl⟩
  · intro co si p j b0
    unfold updateBook
    split <;> exact ⟨rfl, rfl⟩
  · intro b0 f
    unfold animateToFraction
    split <;> exact ⟨rfl, rfl⟩

/-- Witness for C10 on the concrete closed book fixture: the toggle starts
a click transition without changing `isOpen`. -/
theorem c10_witness :
    ∃ b2, getBook (toggleBookAnimationWithCallback sigmaC10 0 none) 0 =
        some b2 ∧ b2.isClickPlaying = true ∧ b2.isOpen = bookC10.isOpen :=
  (c10_flag_discipline sigmaC10 0 none bookC10).2.1 rfl (by simp [bookC10])

/-- Claim C1 (code bug trace): with two books open, the close-all issues
both per-book toggles, but after both books have fully settled closed only
ONE completion was counted: the first fired wrapper restored the original
`checkAnimationProgress`, dropping the second wrapper from the dispatch
chain.  The aggregate promise is still pending (1 of 2) and can never
resolve — the final state is a fixed point of the frame tick. -/
theorem c1_close_all_starves :
    openBookIndices sigmaC1 = [0, 1] ∧
    ticks 9 2 (closeAllOpenBooksWithPromise sigmaC1) = sigmaC1final ∧
    sigmaC1final.fired = [.checkAllClosed] ∧
    sigmaC1final.bookClosePromise = some ⟨2, 1⟩ ∧
    sigmaC1final.aggResolvedCount = 0 ∧
    isAnyBookOpen sigmaC1final = false ∧
    (∀ dt : ℚ, tick dt sigmaC1final = sigmaC1final) := by
  refine ⟨rfl, ?_, rfl, rfl, rfl, rfl, fun dt => rfl⟩
  norm_num [ticks, tick, tickBook, tickTimelineBook, runChecker,
    checkAnimationProgress, checkClips, checkClip, advanceClip, mixerUpdate,
    advanceTimeline, closeAllOpenBooksWithPromise, isAnyBookOpen,
    openBookIndices, toggleBookAnimationWithCallback, getBook, setBook,
    buildTimeline, cancelHover, otherBookExists, fireOptCallback,
    fireCallback, clickPlayPercentage, hoverPlayPercentage, sigmaC1,
    bookC1A, bookC1B, tlOpenDone, tlClosedDone, sigmaC1final, baseTexture,
    List.range_succ, List.foldl_append, List.foldl_cons, List.foldl_nil]

/-- Claim C2 (code bug trace): two closing toggles carrying two distinct
callbacks; after both books settle fully closed, callback 1 fired once but
callback 2 never fired at all (the wrapper carrying it was dropped when the
first wrapper restored the original checker), and no further step can ever
fire it — the final state is a fixed point of the frame tick. -/
theorem c2_callback_never_fires :
    ticks 9 2 sigmaC2run = sigmaC2final ∧
    sigmaC2final.fired = [.external 1] ∧
    CallbackId.external 2 ∉ sigmaC2final.fired ∧
    isAnyBookOpen sigmaC2final = false ∧
    (∀ dt : ℚ, tick dt sigmaC2final = sigmaC2final) := by
  refine ⟨?_, rfl, by decide, rfl, fun dt => rfl⟩
  norm_num [ticks, tick, tickBook, tickTimelineBook, runChecker,
    checkAnimationProgress, checkClips, checkClip, advanceClip, mixerUpdate,
    advanceTimeline, toggleBookAnimationWithCallback, getBook, setBook,
    buildTimeline, cancelHover, otherBookExists, fireOptCallback,
    fireCallback, clickPlayPercentage, hoverPlayPercentage, sigmaC2run,
    sigmaC2, bookC1A, bookC1B, tlOpenDone, tlClosedDone, sigmaC2final,
    baseTexture, List.range_succ, List.foldl_append, List.foldl_cons,
    List.foldl_nil]


/-- Claim C8 counterexample trace: book 1 is mid-opening (click-playing,
`isOpen` still false) when book 0 — closed — is clicked.  The post-toggle
scan only closes books whose `isOpen` flag is already true, so book 1 is
not toggled; once every transition settles, book 1 (and book 0) are fully
Open: two books open at once, contradicting the exclusivity conclusion. -/
theorem c8_counterexample :
    (getBook sigmaC8 0).map Book.isOpen = some false ∧
    (getBook sigmaC8 1).map Book.isOpen = some false ∧
    (getBook sigmaC8 1).map Book.isClickPlaying = some true ∧
    ticks 2 5 (onCanvasClick sigmaC8 (some 0)) = sigmaC8final ∧
    (getBook sigmaC8final 0).map Book.isOpen = some true ∧
    (getBook sigmaC8final 1).map Book.isOpen = some true ∧
    (∀ dt : ℚ, tick dt sigmaC8final = sigmaC8final) := by
  refine ⟨rfl, rfl, rfl, ?_, rfl, rfl, fun dt => rfl⟩
  norm_num [ticks, tick, tickBook, tickTimelineBook, runChecker,
    checkAnimationProgress, checkClips, checkClip, advanceClip, mixerUpdate,
    advanceTimeline, onCanvasClick, closeOthersScan,
    toggleBookAnimationWithCallback, getBook, setBook, buildTimeline,
    cancelHover, otherBookExists, fireOptCallback, fireCallback,
    clickPlayPercentage, hoverPlayPercentage, sigmaC8, bookC8zero,
    bookC8one, sigmaC8final, baseTexture, List.range_succ,
    List.foldl_append, List.foldl_cons, List.foldl_nil]

/-- Folding steps that cannot touch slot `j` leave slot `j` unchanged. -/
theorem foldl_getBook_preserve (f : Texture → Nat → Texture) (j : Nat)
    (hpres : ∀ s i, i ≠ j → getBook (f s i) j = getBook s j) :
    ∀ (l : List Nat) (s : Texture), j ∉ l →
      getBook (List.foldl f s l) j = getBook s j := by
  intro l
  induction l with
  | nil => intro s _; rfl
  | cons i rest ih =>
    intro s hj
    rw [List.foldl_cons, ih (f s i) (fun hmem => hj (List.mem_cons_of_mem i hmem)),
      hpres s i (fun he => hj (he ▸ List.mem_cons_self i rest))]

/-- A fold over a duplicate-free index list containing `j` establishes any
slot-`j` property that the `j` step establishes, provided the other steps
cannot touch slot `j`. -/
theorem foldl_achieve (f : Texture → Nat → Texture) (j : Nat)
    (v : Option Book) (G : Texture → Prop)
    (hpres : ∀ s i, i ≠ j → getBook (f s i) j = getBook s j)
    (hG : ∀ s t, getBook s j = getBook t j → G s → G t)
    (hstep : ∀ s, getBook s j = v → G (f s j)) :
    ∀ (l : List Nat) (s : Texture), l.Nodup → j ∈ l → getBook s j = v →
      G (List.foldl f s l) := by
  intro l
  induction l with
  | nil => intro s _ hmem; exact absurd hmem (List.not_mem_nil j)
  | cons i rest ih =>
    intro s hnd hmem hv
    obtain ⟨hni, hnd2⟩ := List.nodup_cons.mp hnd
    by_cases hji : j = i
    · subst hji
      rw [List.foldl_cons]
      have hGj : G (f s j) := hstep s hv
      have hkeep : getBook (List.foldl f (f s j) rest) j = getBook (f s j) j :=
        foldl_getBook_preserve f j hpres rest (f s j) hni
      exact hG (f s j) _ hkeep.symm hGj
    · rcases List.mem_cons.mp hmem with he | hmem2
      · exact absurd he hji
      · rw [List.foldl_cons]
        exact ih (f s i) hnd2 hmem2 (by rw [hpres s i (fun he => hji he.symm), hv])

/-- Claim C8 (amended): after a click on a Closed book `k`, every *other*
book whose `isOpen` flag is true at scan time is issued a closing toggle:
it ends the handler click-playing with every action driven backward.
(Books mid-transition — `isClickPlaying` true but `isOpen` still false —
are not scanned, which is what the counterexample exploits.) -/
theorem c8_click_closes_open_books (σ : Texture) (k : Nat) (b : Book)
    (hb : getBook σ k = some b) (hbo : b.isOpen = false)
    (hci : σ.canInteract = true) (hcf : σ.isClosingFromScroll = false)
    (j : Nat) (bj : Book) (hjk : j ≠ k) (hbj : getBook σ j = some bj)
    (hjo : bj.isOpen = true) (hjc : bj.clips ≠ []) :
    ∃ b2, getBook (onCanvasClick σ (some k)) j = some b2 ∧
      b2.isClickPlaying = true ∧ b2.isOpen = true ∧
      (∀ c ∈ b2.clips, c.timeScale = -1 ∧ c.paused = false) := by
  have hg1 : ∃ bk, getBook (toggleBookAnimationWithCallback σ k none) k = some bk ∧
      bk.isOpen = false := by
    by_cases hkc : b.clips = []
    · refine ⟨b, ?_, hbo⟩
      have hnoop : toggleBookAnimationWithCallback σ k none = σ := by
        simp [toggleBookAnimationWithCallback, hb, hkc, fireOptCallback]
      rw [hnoop]
      exact hb
    · obtain ⟨b2, hg, _, hio, _, _⟩ := toggle_getBook_self σ k none b hb hkc
      exact ⟨b2, hg, by rw [hio, hbo]⟩
  obtain ⟨bk, hbk, hbko⟩ := hg1
  have hred : onCanvasClick σ (some k) =
      closeOthersScan (toggleBookAnimationWithCallback σ k none) k := by
    unfold onCanvasClick
    rw [if_neg (by simp [hci, hcf])]
    simp only [hbk, if_pos hbko]
  rw [hred]
  have hbj1 : getBook (toggleBookAnimationWithCallback σ k none) j = some bj :=
    by rw [toggle_books_other σ k none j hjk]; exact hbj
  have hlt : j < (toggleBookAnimationWithCallback σ k none).books.length :=
    getBook_some_lt _ j bj hbj1
  show ∃ b2, getBook ((List.range
      (toggleBookAnimationWithCallback σ k none).books.length).foldl
      (fun s i =>
        if i = k then s
        else
          match getBook s i with
          | some ob => if ob.isOpen then toggleBookAnimationWithCallback s i none
                       else s
          | none => s)
      (toggleBookAnimationWithCallback σ k none)) j = some b2 ∧
      b2.isClickPlaying = true ∧ b2.isOpen = true ∧
      (∀ c ∈ b2.clips, c.timeScale = -1 ∧ c.paused = false)
  refine foldl_achieve
    (fun s i =>
      if i = k then s
      else
        match getBook s i with
        | some ob => if ob.isOpen then toggleBookAnimationWithCallback s i none
                     else s
        | none => s)
    j (some bj)
    (fun s => ∃ b2, getBook s j = some b2 ∧
      b2.isClickPlaying = true ∧ b2.isOpen = true ∧
      (∀ c ∈ b2.clips, c.timeScale = -1 ∧ c.paused = false))
    ?_ ?_ ?_ _ _ (List.nodup_range _) (List.mem_range.mpr hlt) hbj1
  · intro s i hij
    show getBook
      (if i = k then s
       else
         match getBook s i with
         | some ob => if ob.isOpen then toggleBookAnimationWithCallback s i none
                      else s
         | none => s) j = getBook s j
    by_cases hik : i = k
    · rw [if_pos hik]
    · rw [if_neg hik]
      cases hgs : getBook s i with
      | none => rfl
      | some ob =>
        show getBook (if ob.isOpen then toggleBookAnimationWithCallback s i none
                      else s) j = getBook s j
        by_cases hos : ob.isOpen = true
        · rw [if_pos hos]
          exact toggle_books_other s i none j (fun he => hij he.symm)
        · rw [if_neg hos]
  · rintro s t hst ⟨b2, hgb, hrest⟩
    exact ⟨b2, by rw [← hst]; exact hgb, hrest⟩
  · intro s hsv
    show ∃ b2, getBook
      (if j = k then s
       else
         match getBook s j with
         | some ob => if ob.isOpen then toggleBookAnimationWithCallback s j none
                      else s
         | none => s) j = some b2 ∧
      b2.isClickPlaying = true ∧ b2.isOpen = true ∧
      (∀ c ∈ b2.clips, c.timeScale = -1 ∧ c.paused = false)
    rw [if_neg hjk]
    simp only [hsv, if_pos hjo]
    obtain ⟨b2, hg, hcp, hio, hclose, _⟩ := toggle_getBook_self s j none bj hsv hjc
    exact ⟨b2, hg, hcp, by rw [hio, hjo], hclose hjo⟩

/-- Witness for C8 (amended): clicking closed book 0 while book 1 is fully
open issues the closing toggle on book 1. -/
theorem c8_witness :
    ∃ b2, getBook (onCanvasClick
        { baseTexture with
            books := [some bookC8zero, some bookC1A], canInteract := true }
        (some 0)) 1 = some b2 ∧
      b2.isClickPlaying = true ∧ b2.isOpen = true ∧
      (∀ c ∈ b2.clips, c.timeScale = -1 ∧ c.paused = false) :=
  c8_click_closes_open_books
    { baseTexture with
        books := [some bookC8zero, some bookC1A], canInteract := true }
    0 bookC8zero rfl rfl rfl rfl 1 bookC1A
    (by decide) rfl rfl (by simp [bookC1A])


/-! ### C3: the scroll machine -/

theorem fireCallback_misc (σ : Texture) (cb : CallbackId) :
    (fireCallback σ cb).pendingTarget = σ.pendingTarget ∧
    (fireCallback σ cb).lastProgress = σ.lastProgress := by
  cases cb with
  | checkAllClosed =>
    cases h : σ.bookClosePromise with
    | none => simp [fireCallback, h]
    | some a => by_cases ht : a.target ≤ a.closedCount + 1 <;> simp [fireCallback, h, ht]
  | external n => simp [fireCallback]

theorem fireOptCallback_misc (σ : Texture) (cb : Option CallbackId) :
    (fireOptCallback σ cb).pendingTarget = σ.pendingTarget := by
  cases cb with
  | none => rfl
  | some c => exact (fireCallback_misc σ c).1

theorem toggle_pendingTarget (σ : Texture) (i : Nat) (cb : Option CallbackId) :
    (toggleBookAnimationWithCallback σ i cb).pendingTarget = σ.pendingTarget := by
  unfold toggleBookAnimationWithCallback
  cases hb : getBook σ i with
  | none => exact fireOptCallback_misc σ cb
  | some b0 =>
    by_cases hc : b0.clips = []
    · simp only [hc, if_pos rfl]
      exact fireOptCallback_misc σ cb
    · simp only [hc, if_neg (by simpa using hc)]
      by_cases ho : (buildTimeline σ i cb (cancelHover b0)).isOpen = false
      · simp [ho, setBook]
      · simp [ho, setBook]

theorem closeAll_pendingTarget (σ : Texture) :
    (closeAllOpenBooksWithPromise σ).pendingTarget = σ.pendingTarget := by
  unfold closeAllOpenBooksWithPromise
  by_cases h1 : σ.bookClosePromise.isSome = true
  · rw [if_pos h1]
  · simp only [if_neg h1]
    by_cases h2 : isAnyBookOpen σ = false
    · rw [if_pos h2]
    · simp only [if_neg h2]
      by_cases h3 : (openBookIndices σ).isEmpty = true
      · rw [if_pos h3]
      · simp only [if_neg h3]
        rw [foldl_pres _ Texture.pendingTarget
          (fun s a => toggle_pendingTarget s a (some .checkAllClosed))]

theorem closeOthersScan_scroll_flag (σ : Texture) (k : Nat) :
    (closeOthersScan σ k).isClosingFromScroll = σ.isClosingFromScroll := by
  unfold closeOthersScan
  apply foldl_pres
  intro s i
  show (if i = k then s
        else
          match getBook s i with
          | some ob => if ob.isOpen then toggleBookAnimationWithCallback s i none
                       else s
          | none => s).isClosingFromScroll = s.isClosingFromScroll
  by_cases hik : i = k
  · rw [if_pos hik]
  · rw [if_neg hik]
    cases hgs : getBook s i with
    | none => rfl
    | some ob =>
      show (if ob.isOpen then toggleBookAnimationWithCallback s i none
            else s).isClosingFromScroll = s.isClosingFromScroll
      by_cases hos : ob.isOpen = true
      · rw [if_pos hos]
        exact (toggle_scroll_flags s i none).1
      · rw [if_neg hos]

theorem onCanvasClick_scroll_flag (σ : Texture) (hit : Option Nat) :
    (onCanvasClick σ hit).isClosingFromScroll = σ.isClosingFromScroll := by
  unfold onCanvasClick
  by_cases hg : σ.canInteract = false ∨ σ.isClosingFromScroll = true
  · rw [if_pos (by rcases hg with h | h <;> simp [h])]
  · rw [if_neg (by push_neg at hg; simp [hg.1, hg.2])]
    cases hit with
    | none => rfl
    | some k =>
      show (match getBook (toggleBookAnimationWithCallback σ k none) k with
            | some b =>
              if b.isOpen = false
              then closeOthersScan (toggleBookAnimationWithCallback σ k none) k
              else toggleBookAnimationWithCallback σ k none
            | none => toggleBookAnimationWithCallback σ k none).isClosingFromScroll =
          σ.isClosingFromScroll
      cases hb : getBook (toggleBookAnimationWithCallback σ k none) k with
      | none => exact (toggle_scroll_flags σ k none).1
      | some b =>
        show (if b.isOpen = false
              then closeOthersScan (toggleBookAnimationWithCallback σ k none) k
              else toggleBookAnimationWithCallback σ k none).isClosingFromScroll =
            σ.isClosingFromScroll
        by_cases ho : b.isOpen = false
        · rw [if_pos ho, closeOthersScan_scroll_flag]
          exact (toggle_scroll_flags σ k none).1
        · rw [if_neg ho]
          exact (toggle_scroll_flags σ k none).1

/-- Shared core of the two hover-retarget helpers. -/
theorem hoverCore_flag (τ : Texture) (k : Nat) (f : ℚ) :
    (match getBook τ k with
     | none => τ
     | some b =>
       if b.isOpen ∨ b.isClickPlaying then τ
       else setBook τ k (animateToFraction b f)).isClosingFromScroll =
      τ.isClosingFromScroll := by
  cases hg : getBook τ k with
  | none => rfl
  | some b =>
    show (if b.isOpen ∨ b.isClickPlaying then τ
          else setBook τ k (animateToFraction b f)).isClosingFromScroll =
        τ.isClosingFromScroll
    by_cases hcond : b.isOpen = true ∨ b.isClickPlaying = true
    · rw [if_pos hcond]
    · rw [if_neg hcond]; rfl

theorem setHoveredBook_scroll_flag (σ : Texture) (k : Nat) :
    (setHoveredBook σ k).isClosingFromScroll = σ.isClosingFromScroll :=
  hoverCore_flag { σ with currentHoveredIndex := (k : Int) } k hoverPlayPercentage

theorem clearHoveredBook_scroll_flag (σ : Texture) :
    (clearHoveredBook σ).isClosingFromScroll = σ.isClosingFromScroll := by
  unfold clearHoveredBook
  by_cases h0 : σ.currentHoveredIndex = -1
  · rw [if_pos h0]
  · rw [if_neg h0]
    exact hoverCore_flag { σ with currentHoveredIndex := -1 }
      σ.currentHoveredIndex.toNat 0

theorem onCanvasMouseMove_scroll_flag (σ : Texture) (hit : Option Nat) :
    (onCanvasMouseMove σ hit).isClosingFromScroll = σ.isClosingFromScroll := by
  unfold onCanvasMouseMove
  split
  · rfl
  · split
    · split
      · rfl
      · rw [setHoveredBook_scroll_flag, clearHoveredBook_scroll_flag]
    · exact clearHoveredBook_scroll_flag σ

/-- The `onUpdate` handler on the triggering condition: capture the target,
disable the driver, raise the flag, then issue the close-all; the
steady-state block is skipped (the flag is up) and `lastProgress` is
recorded. -/
theorem onUpdate_trigger (cosine sine : ℚ → ℚ) (σ : Texture) (p : ℚ)
    (h1 : p < σ.lastProgress) (h2 : isAnyBookOpen σ = true)
    (h3 : σ.isClosingFromScroll = false) :
    onUpdate cosine sine σ p =
      ({ closeAllOpenBooksWithPromise
           { σ with isClosingFromScroll := true, pendingTarget := some p } with
         lastProgress := p },
       [.disableScroll, .setClosingFlag, .issueCloseAll]) := by
  have hgo : (decide (p < σ.lastProgress) && isAnyBookOpen σ &&
      !σ.isClosingFromScroll) = true := by
    simp [h1, h2, h3]
  have hflag : (closeAllOpenBooksWithPromise
      { σ with isClosingFromScroll := true, pendingTarget := some p }).isClosingFromScroll =
      true := (closeAll_scroll_flags _).1
  simp [onUpdate, hgo, hflag]

/-- The `onUpdate` handler while a recovery is in flight: everything except
the `lastProgress` bookkeeping is suppressed. -/
theorem onUpdate_noTrigger_closing (cosine sine : ℚ → ℚ) (σ : Texture) (p : ℚ)
    (h : σ.isClosingFromScroll = true) :
    onUpdate cosine sine σ p = ({ σ with lastProgress := p }, []) := by
  have hgo : (decide (p < σ.lastProgress) && isAnyBookOpen σ &&
      !σ.isClosingFromScroll) = false := by
    simp [h]
  simp [onUpdate, hgo, h]

/-- The steady-state `onUpdate`: orbit update plus the `canInteract`
recomputation. -/
theorem onUpdate_steady (cosine sine : ℚ → ℚ) (σ : Texture) (p : ℚ)
    (hflag : σ.isClosingFromScroll = false)
    (hno : ¬(p < σ.lastProgress ∧ isAnyBookOpen σ = true)) :
    onUpdate cosine sine σ p =
      ({ updateBookPositions cosine sine σ p with
         canInteract := decide (p = 1), lastProgress := p },
       [.orbitUpdate p, .setCanInteract (decide (p = 1))]) := by
  have hgo : (decide (p < σ.lastProgress) && isAnyBookOpen σ &&
      !σ.isClosingFromScroll) = false := by
    by_cases ha : p < σ.lastProgress
    · have hb : isAnyBookOpen σ = false := by
        cases hob : isAnyBookOpen σ with
        | true => exact absurd ⟨ha, hob⟩ hno
        | false => rfl
      simp [hb]
    · simp [ha]
  simp [onUpdate, hgo, hflag, hno, updateBookPositions]

/-- Claim C3: the scroll-reversal recovery starts on a scroll update iff
progress decreased, a book is open and no recovery is in flight; on entry
the driver is disabled and the flag raised before the close-all is issued
(and the close-all runs against the flag-raised state); while the flag is
up a scroll update changes nothing but `lastProgress` (no orbit update, no
`canInteract` write, no re-entry); no event other than the final
scroll-offset animation completion ever clears the flag; and that
completion clears it, emitting exactly the clear action. -/
theorem c3_scroll_recovery (cosine sine : ℚ → ℚ) (σ : Texture) (p : ℚ)
    (e : Ev) (t : ℚ) :
    (Action.issueCloseAll ∈ (onUpdate cosine sine σ p).2 ↔
      (p < σ.lastProgress ∧ isAnyBookOpen σ = true ∧
       σ.isClosingFromScroll = false)) ∧
    (p < σ.lastProgress → isAnyBookOpen σ = true →
      σ.isClosingFromScroll = false →
      (onUpdate cosine sine σ p).2 =
        [.disableScroll, .setClosingFlag, .issueCloseAll] ∧
      (onUpdate cosine sine σ p).1 =
        { closeAllOpenBooksWithPromise
            { σ with isClosingFromScroll := true, pendingTarget := some p } with
          lastProgress := p } ∧
      (onUpdate cosine sine σ p).1.isClosingFromScroll = true ∧
      (onUpdate cosine sine σ p).1.pendingTarget = some p ∧
      (onUpdate cosine sine σ p).1.canInteract = σ.canInteract) ∧
    (σ.isClosingFromScroll = true →
      (onUpdate cosine sine σ p).1 = { σ with lastProgress := p } ∧
      (onUpdate cosine sine σ p).2 = []) ∧
    ((step cosine sine σ e).1.isClosingFromScroll = false →
      σ.isClosingFromScroll = false ∨ e = .scrollAnimationComplete) ∧
    (σ.isClosingFromScroll = true → σ.pendingTarget = some t →
      (step cosine sine σ .scrollAnimationComplete).1.isClosingFromScroll = false ∧
      (step cosine sine σ .scrollAnimationComplete).2 = [.clearClosingFlag]) := by
  refine ⟨⟨?_, ?_⟩, ?_, ?_, ?_, ?_⟩
  · intro hmem
    by_contra hnc
    by_cases hf : σ.isClosingFromScroll = true
    · rw [onUpdate_noTrigger_closing cosine sine σ p hf] at hmem
      simp at hmem
    · have hf2 : σ.isClosingFromScroll = false := by
        cases hv : σ.isClosingFromScroll with
        | true => exact absurd hv hf
        | false => rfl
      by_cases hpo : p < σ.lastProgress ∧ isAnyBookOpen σ = true
      · exact hnc ⟨hpo.1, hpo.2, hf2⟩
      · rw [onUpdate_steady cosine sine σ p hf2 hpo] at hmem
        simp at hmem
  · rintro ⟨h1, h2, h3⟩
    rw [onUpdate_trigger cosine sine σ p h1 h2 h3]
    simp
  · intro h1 h2 h3
    rw [onUpdate_trigger cosine sine σ p h1 h2 h3]
    refine ⟨rfl, rfl, ?_, ?_, ?_⟩
    · exact (closeAll_scroll_flags _).1
    · exact closeAll_pendingTarget _
    · exact (closeAll_scroll_flags _).2
  · intro hf
    have h := onUpdate_noTrigger_closing cosine sine σ p hf
    exact ⟨by rw [h], by rw [h]⟩
  · cases e with
    | scrollUpdate q =>
      intro hres
      cases hv : σ.isClosingFromScroll with
      | false => exact Or.inl rfl
      | true =>
        rw [show step cosine sine σ (.scrollUpdate q) =
            onUpdate cosine sine σ q from rfl,
          onUpdate_noTrigger_closing cosine sine σ q hv] at hres
        exact absurd hres (by simp [hv])
    | frame dt =>
      intro hres
      rw [show (step cosine sine σ (.frame dt)).1 = tick dt σ from rfl,
        (tick_scroll_flags dt σ).1] at hres
      exact Or.inl hres
    | canvasClick hit =>
      intro hres
      rw [show (step cosine sine σ (.canvasClick hit)).1 = onCanvasClick σ hit
          from rfl, onCanvasClick_scroll_flag σ hit] at hres
      exact Or.inl hres
    | canvasMouseMove hit =>
      intro hres
      rw [show (step cosine sine σ (.canvasMouseMove hit)).1 =
          onCanvasMouseMove σ hit from rfl,
        onCanvasMouseMove_scroll_flag σ hit] at hres
      exact Or.inl hres
    | closeAllResolved =>
      intro hres
      cases hpt : σ.pendingTarget with
      | none =>
        simp only [step, onCloseAllResolved, hpt] at hres
        exact Or.inl hres
      | some u =>
        simp only [step, onCloseAllResolved, hpt,
          calculateBookPositionsForProgress] at hres
        exact Or.inl hres
    | positionTransitionComplete =>
      intro hres
      cases hpt : σ.pendingTarget with
      | none =>
        simp only [step, onPositionTransitionComplete, hpt] at hres
        exact Or.inl hres
      | some u =>
        simp only [step, onPositionTransitionComplete, hpt] at hres
        exact Or.inl hres
    | scrollAnimationComplete => intro _; exact Or.inr rfl
  · intro _ ht
    constructor
    · simp [step, onScrollAnimationComplete, ht]
    · simp [step, onScrollAnimationComplete, ht]

/-- Witness for C3: a decreasing scroll update with one open book and no
recovery in flight emits exactly disable, flag-set and close-all issue. -/
theorem c3_witness :
    (onUpdate (fun _ => 0) (fun _ => 0) sigmaC3w (1/2)).2 =
      [.disableScroll, .setClosingFlag, .issueCloseAll] :=
  ((c3_scroll_recovery (fun _ => 0) (fun _ => 0) sigmaC3w (1/2) (.frame 0) 0).2.1
    (by norm_num [sigmaC3w, baseTexture]) rfl rfl).1

end BooksDemo
